import Mathlib

/-!
Verification development for the AIpersonalizer repository (`src/app.py`).

The Python program is a two-phase LangGraph workflow:

* a preparation graph `FetchData -> AnalyzeCompany -> DecidePagesToPers ->
  ParallelProcessing`, and
* a per-page personalization graph `DecideComponentsToPers -> Router ->
  {PersTexts, PersImages, PersElmtOrder, SavePersPage}`, where every step
  node except `SavePersPage` has an edge back to `Router` and
  `SavePersPage` has an edge straight to `END`.

This file shallowly embeds the workflow state and every node function.
Language-model responses, HTTP reads and database exceptions are external
inputs, so each node takes the outcome of its external call as an explicit
`Except`/`Option` argument; the rest of each definition follows the Python
statement by statement.  In-place dictionary mutation is modelled by
rebuilding the record, and the mutation ORDER is preserved wherever a later
exception can observe an earlier in-place write (this matters for
`personalize_images_node`, whose assignment loop can raise an `IndexError`
after having already written images into some blocks).
-/

/-! ## Data model -/

/-- A CMS asset, as consumed by `personalize_images_node`
(`asset["title"]`, `filename`, `description`, `tags`). -/
structure Asset where
  title : String
  filename : String
  description : String
  tags : List String
deriving Repr, DecidableEq

/-- One page block.  In the JSON this is
`{"block": {"title", "copy", "image", "_metadata": {"uid"}}}`; the nesting
is flattened here.  `image` is `none` until an image is placed. -/
structure Block where
  uid : String
  title : String
  copy : String
  image : Option Asset
deriving Repr, DecidableEq

/-- A CMS page entry / persisted page document.  `extra` models the open
attribute bag of the JSON document (fields the workflow never touches),
which is what the upsert claim about surviving fields is about.
`customer_uid` is absent (`none`) until `save_personalized_page_node`
attaches it. -/
structure Page where
  title : String
  url : String
  blocks : List Block
  customer_uid : Option String
  extra : List (String × String)
deriving Repr, DecidableEq

/-- `state["page_to_personalize"]` is either a real page dict or the
`{"Error": message}` dict installed by
`handle_error_personalization_process` on a fatal failure. -/
inductive PageResult where
  | ok (page : Page)
  | err (msg : String)
deriving Repr, DecidableEq

/-- `"Error" in state["page_to_personalize"]`. -/
def PageResult.isErr : PageResult → Bool
  | .ok _ => false
  | .err _ => true

/-- `state["page_to_personalize"].get("Error")` on the error dict. -/
def PageResult.errMsg : PageResult → String
  | .ok _ => ""
  | .err m => m

/-- The `customer_information` dict built by `analyze_company_node`:
`industry` and `customer_uid` are always present, `company_size` and
`country` are present only when the research result was not a sentinel. -/
structure CustomerInformation where
  industry : String
  customer_uid : String
  company_size : Option Int
  country : Option String
deriving Repr, DecidableEq

/-- The raw CMS asset list (`asset_list["assets"]`). -/
structure AssetListJson where
  assets : List Asset
deriving Repr, DecidableEq

/-- `PersonalizationProcessState` (the per-page graph state TypedDict). -/
structure PersonalizationProcessState where
  customer_information : CustomerInformation
  page_to_personalize : PageResult
  asset_list : AssetListJson
  personalization_queue : List String
  is_retry_step : Bool
deriving Repr, DecidableEq

/-! ## Structured LLM outputs of the personalization nodes -/

/-- Structured output of `personalize_text` (`GeneratedText`). -/
structure GeneratedText where
  title : String
  copytext : String
  explanation : String
deriving Repr, DecidableEq

/-- Structured output of `personalize_images_node` (`Image`): `titles` and
`block_uids` are positionally paired lists. -/
structure ImagesResponse where
  titles : List String
  block_uids : List String
  explanation : List String
deriving Repr, DecidableEq

/-- Structured output of `personalize_element_order_node`
(`GeneratedOrder`). -/
structure GeneratedOrder where
  block_order : List String
  explanation : String
deriving Repr, DecidableEq

/-! ## Error handler of the personalization process -/

/-- `handle_error_personalization_process(state, error_message)`:
on a retried step it empties the queue and replaces the page dict by
`{"Error": error_message}`; on a first error it only sets the retry flag
(the unchanged queue head makes the router re-dispatch the same step). -/
def handle_error_personalization_process
    (state : PersonalizationProcessState) (error_message : String) :
    PersonalizationProcessState :=
  if state.is_retry_step then
    { state with
        personalization_queue := [],
        page_to_personalize := PageResult.err error_message }
  else
    { state with is_retry_step := true }

/-! ## Personalization nodes -/

/-- `decide_components_to_personalize_node`: on a structured response with a
nonempty `personalization_list` it installs the returned list verbatim and
appends `"save"`; an empty list or an exception goes to the error handler.
Note that the node never validates the step names and never resets
`is_retry_step`. -/
def decide_components_to_personalize_node
    (state : PersonalizationProcessState)
    (llm : Except String (List String)) : PersonalizationProcessState :=
  match llm with
  | .ok personalization_list =>
      if personalization_list ≠ [] then
        { state with
            personalization_queue := personalization_list ++ ["save"] }
      else
        handle_error_personalization_process state
          "Error: Agent chose no components to personalize"
  | .error e =>
      handle_error_personalization_process state
        ("Agent was unable to decide what components should be personalized: " ++ e)

/-- The targets of `personalization_router_node`
(`Command[Literal[...]]`). -/
inductive RouterTarget where
  | persTexts
  | persImages
  | persElmtOrder
  | savePersPage
  | end_
deriving Repr, DecidableEq

/-- `personalization_router_node`: dispatch on the queue head.  The Python
`match` has no default case, so for a nonempty queue whose head is none of
the four known step names the local `goto` is never assigned and
`Command(goto=goto)` raises an `UnboundLocalError`; that stuck outcome is
modelled as `none`. -/
def personalization_router_node
    (state : PersonalizationProcessState) : Option RouterTarget :=
  match state.personalization_queue with
  | [] => some RouterTarget.end_
  | head :: _ =>
      if head = "text" then some RouterTarget.persTexts
      else if head = "image" then some RouterTarget.persImages
      else if head = "order" then some RouterTarget.persElmtOrder
      else if head = "save" then some RouterTarget.savePersPage
      else none

/-- The write-back loop of `personalize_texts_node`
(`for i, text in enumerate(personalized_texts): block_list[i][...] = ...`):
it overwrites title/copy of the first `min` blocks in order and raises an
`IndexError` (second component `true`) when the text list is longer than
the block list.  The block list length is never changed. -/
def updateTexts : List Block → List GeneratedText → List Block × Bool
  | blocks, [] => (blocks, false)
  | [], _ :: _ => ([], true)
  | b :: bs, t :: ts =>
      let r := updateTexts bs ts
      ({ b with copy := t.copytext, title := t.title } :: r.1, r.2)

/-- `personalize_texts_node`: one `GeneratedText` per block (gathered
concurrently in the source; the join result is the input list here).  On
success it pops the queue head and clears the retry flag; an exception —
including `pop(0)` on an empty queue, and a write-back `IndexError` raised
after the in-place block mutation — is caught by the error handler.
Reading `["blocks"]` of an `{"Error": ...}` page dict raises a `KeyError`
inside the `try`, hence the error-handler fallthrough for `.err` pages. -/
def personalize_texts_node (state : PersonalizationProcessState)
    (llm : Except String (List GeneratedText)) : PersonalizationProcessState :=
  match state.page_to_personalize, llm with
  | PageResult.ok page, Except.ok personalized_texts =>
      let r := updateTexts page.blocks personalized_texts
      let state1 := { state with
        page_to_personalize := PageResult.ok { page with blocks := r.1 } }
      if r.2 then
        handle_error_personalization_process state1
          "An error occurred when personalizing the text of page: list index out of range"
      else
        match state1.personalization_queue with
        | [] =>
            handle_error_personalization_process state1
              "An error occurred when personalizing the text of page: pop from empty list"
        | _ :: rest =>
            { state1 with personalization_queue := rest, is_retry_step := false }
  | _, _ =>
      handle_error_personalization_process state
        "An error occurred when personalizing the text of page"

/-- `block["block"]["image"] = img` through a reference obtained by
scanning for `uid`: only the first block with that uid is written. -/
def setImageFirst (blocks : List Block) (uid : String) (img : Asset) :
    List Block :=
  match blocks with
  | [] => []
  | b :: rest =>
      if b.uid = uid then { b with image := some img } :: rest
      else b :: setImageFirst rest uid img

/-- The assignment loop of `personalize_images_node`
(`for index, block in enumerate(block_details): block[...]["image"] =
image_details[index]`).  `uids` are the uids of the resolved blocks in
order; the loop writes images one by one (in place, observable by a later
exception) and raises an `IndexError` (second component `true`) as soon as
`image_details` is exhausted while blocks remain. -/
def applyImagesLoop : List Block → List String → List Asset →
    List Block × Bool
  | blocks, [], _ => (blocks, false)
  | blocks, _ :: _, [] => (blocks, true)
  | blocks, u :: us, img :: imgs =>
      applyImagesLoop (setImageFirst blocks u img) us imgs

/-- `personalize_images_node`: resolves each returned title against the
asset catalog and each returned uid against the page's blocks (first match,
skipping the ones that do not resolve), then pairs them positionally.  The
step fails only when no uid resolved (`len(block_details) == 0`) or when
fewer titles than uids resolved (`IndexError` partway through the in-place
assignment loop); unresolved titles are otherwise silently dropped. -/
def personalize_images_node (state : PersonalizationProcessState)
    (llm : Except String ImagesResponse) : PersonalizationProcessState :=
  match state.page_to_personalize, llm with
  | PageResult.ok page, Except.ok response =>
      let image_details := response.titles.filterMap
        (fun title => state.asset_list.assets.find? (fun image => image.title = title))
      let block_details := response.block_uids.filter
        (fun uid => (page.blocks.find? (fun block => block.uid = uid)).isSome)
      if block_details.length ≠ 0 then
        let applied := applyImagesLoop page.blocks block_details image_details
        let state1 := { state with
          page_to_personalize := PageResult.ok { page with blocks := applied.1 } }
        if applied.2 then
          handle_error_personalization_process state1
            "An error occurred when personalizing the image of page: list index out of range"
        else
          match state1.personalization_queue with
          | [] =>
              handle_error_personalization_process state1
                "An error occurred when personalizing the image of page: pop from empty list"
          | _ :: rest =>
              { state1 with personalization_queue := rest, is_retry_step := false }
      else
        handle_error_personalization_process state
          "An error occurred when personalizing the image of page: one or more of the chosen images or blocks do not exist."
  | _, _ =>
      handle_error_personalization_process state
        "An error occurred when personalizing the image of page"

/-- `personalize_element_order_node`: the first block is pinned; the
remaining blocks are rebuilt by looking up each uid the model returned in
the remainder list (first match, unmatched uids discarded — and remainder
blocks whose uid the model omitted are dropped).  An empty returned order
is a handled failure.  The accesses `blocks[0]` / `["blocks"]` happen
BEFORE the `try`, so an `.err` page or an empty block list would raise an
uncaught exception killing the whole page task; both are unreachable
through the graph (pages without blocks are filtered out in preparation)
and are modelled as returning the state unchanged. -/
def personalize_element_order_node (state : PersonalizationProcessState)
    (llm : Except String GeneratedOrder) : PersonalizationProcessState :=
  match state.page_to_personalize with
  | PageResult.err _ => state
  | PageResult.ok page =>
      match page.blocks with
      | [] => state
      | stripped_block :: stripped_block_list =>
          match llm with
          | Except.error e =>
              handle_error_personalization_process state
                ("An error occurred when personalizing the order of the elements of page: " ++ e)
          | Except.ok response =>
              if response.block_order ≠ [] then
                let updated_block_list := stripped_block ::
                  response.block_order.filterMap
                    (fun uid => stripped_block_list.find?
                      (fun block => block.uid = uid))
                let state1 := { state with
                  page_to_personalize :=
                    PageResult.ok { page with blocks := updated_block_list } }
                match state1.personalization_queue with
                | [] =>
                    handle_error_personalization_process state1
                      "An error occurred when personalizing the order of the elements of page: pop from empty list"
                | _ :: rest =>
                    { state1 with
                        personalization_queue := rest, is_retry_step := false }
              else
                handle_error_personalization_process state
                  "An error occurred when personalizing the order of the elements of page: No block uids have been returned by the agent"

/-! ## Persistence (MongoDB `pages` collection) -/

/-- `collection.count_documents({'title': title})`. -/
def count_documents (collection : List Page) (title : String) : Nat :=
  (collection.filter (fun d => d.title = title)).length

/-- `collection.insert_one(doc)`. -/
def insert_one (collection : List Page) (doc : Page) : List Page :=
  collection ++ [doc]

/-- `collection.replace_one({'title': title}, doc)`: full replacement of
the first document whose title matches. -/
def replace_one : List Page → String → Page → List Page
  | [], _, _ => []
  | d :: rest, title, doc =>
      if d.title = title then doc :: rest
      else d :: replace_one rest title doc

/-- `save_personalized_page_node`: attaches the customer uid to the page
(an in-place write that persists even if the later database call raises),
then inserts the document if no document with the page's title exists and
fully replaces the (first) existing one otherwise.  `dbExc = some e`
models the database call raising.  On success the queue head is popped but
— unlike the other three step nodes — `is_retry_step` is NOT reset.
A `.err` page reaches a `KeyError` on `["title"]` inside the `try`. -/
def save_personalized_page_node (state : PersonalizationProcessState)
    (dbExc : Option String) (collection : List Page) :
    PersonalizationProcessState × List Page :=
  match state.page_to_personalize with
  | PageResult.err _ =>
      (handle_error_personalization_process state
        "An error occurred while saving the personalized page in the database",
       collection)
  | PageResult.ok page =>
      let generated_page :=
        { page with customer_uid := some state.customer_information.customer_uid }
      let state1 := { state with
        page_to_personalize := PageResult.ok generated_page }
      match dbExc with
      | some e =>
          (handle_error_personalization_process state1
            ("An error occurred while saving the personalized page in the database: " ++ e),
           collection)
      | none =>
          let collection1 :=
            if count_documents collection generated_page.title = 0 then
              insert_one collection generated_page
            else
              replace_one collection generated_page.title generated_page
          match state1.personalization_queue with
          | [] =>
              (handle_error_personalization_process state1
                "An error occurred while saving the personalized page in the database: pop from empty list",
               collection1)
          | _ :: rest =>
              ({ state1 with personalization_queue := rest }, collection1)

/-! ## The per-page graph run (Router loop) -/

/-- External outcomes for one dispatched step node: the structured LLM
response (or exception) each node would receive, and whether the database
call of the save node raises. -/
structure StepEnv where
  textsResp : Except String (List GeneratedText)
  imagesResp : Except String ImagesResponse
  orderResp : Except String GeneratedOrder
  saveExc : Option String
deriving Repr

/-- States visited by the router-driven loop of the personalization graph,
one entry per executed step node (the start state is not included).
`env i` supplies the external outcomes of the `i`-th dispatched node.
Routing follows the compiled graph exactly: `PersTexts`, `PersImages` and
`PersElmtOrder` return to the router, `SavePersPage` has an edge straight
to `END` (so the run stops after the save node regardless of its outcome),
an empty queue routes to `END`, and an unknown queue head leaves the router
stuck (`none`: `UnboundLocalError`), executing no further node. -/
def runTrace (env : Nat → StepEnv) :
    Nat → Nat → PersonalizationProcessState → List Page →
    List PersonalizationProcessState
  | 0, _, _, _ => []
  | fuel + 1, i, state, collection =>
      match personalization_router_node state with
      | some RouterTarget.persTexts =>
          let s := personalize_texts_node state (env i).textsResp
          s :: runTrace env fuel (i + 1) s collection
      | some RouterTarget.persImages =>
          let s := personalize_images_node state (env i).imagesResp
          s :: runTrace env fuel (i + 1) s collection
      | some RouterTarget.persElmtOrder =>
          let s := personalize_element_order_node state (env i).orderResp
          s :: runTrace env fuel (i + 1) s collection
      | some RouterTarget.savePersPage =>
          [(save_personalized_page_node state (env i).saveExc collection).1]
      | some RouterTarget.end_ => []
      | none => []

/-- Final state and final collection of the router-driven loop (same
routing as `runTrace`). -/
def runLoop (env : Nat → StepEnv) :
    Nat → Nat → PersonalizationProcessState → List Page →
    PersonalizationProcessState × List Page
  | 0, _, state, collection => (state, collection)
  | fuel + 1, i, state, collection =>
      match personalization_router_node state with
      | some RouterTarget.persTexts =>
          runLoop env fuel (i + 1)
            (personalize_texts_node state (env i).textsResp) collection
      | some RouterTarget.persImages =>
          runLoop env fuel (i + 1)
            (personalize_images_node state (env i).imagesResp) collection
      | some RouterTarget.persElmtOrder =>
          runLoop env fuel (i + 1)
            (personalize_element_order_node state (env i).orderResp) collection
      | some RouterTarget.savePersPage =>
          save_personalized_page_node state (env i).saveExc collection
      | some RouterTarget.end_ => (state, collection)
      | none => (state, collection)

/-- External outcomes for one whole page run: the
`DecideComponentsToPers` response plus the per-step outcomes. -/
structure PageEnv where
  decideResp : Except String (List String)
  steps : Nat → StepEnv

/-- `personalization_graph.ainvoke`: `DecideComponentsToPers` then the
router loop.  In the source, a state whose queue was never installed (a
failing decide node) makes the router raise a `KeyError`; the initial
state's queue field is `[]` here, on which the router reports `END` — the
per-claim theorems never rely on that unreachable corner. -/
def personalization_graph_ainvoke (pe : PageEnv) (fuel : Nat)
    (state : PersonalizationProcessState) (collection : List Page) :
    PersonalizationProcessState × List Page :=
  runLoop pe.steps fuel 0
    (decide_components_to_personalize_node state pe.decideResp) collection

/-! ## Preparation phase -/

/-- The slice of the raw CDP profile the workflow reads:
`customer_profile["data"]["email_domain"]`; `none` when any of the nested
keys is missing (the `KeyError` path). -/
structure ProfileJson where
  email_domain : Option String
deriving Repr, DecidableEq

/-- The raw CMS page list (`page_list["entries"]`). -/
structure PageListJson where
  entries : List Page
deriving Repr, DecidableEq

/-- Structured output of the company-analysis agent
(`CompanyInformation`). -/
structure CompanyInformationResp where
  company_size : Int
  industry : String
  country : String
  steps_executed : String
deriving Repr, DecidableEq

/-- Structured output of `decide_pages_to_personalize_node`
(`PersonalizationRequired`). -/
structure PagesChoice where
  pages_that_require_personalization : List String
  explanation : String
deriving Repr, DecidableEq

/-- `PreparationState` (the preparation graph TypedDict).  Fields that the
incoming request may omit or that are installed later are `Option`s
(`none` = key absent). -/
structure PreparationState where
  customer_uid : String
  customer_organization : Option String
  customer_profile : Option ProfileJson
  customer_information : Option CustomerInformation
  page_list : Option PageListJson
  asset_list : Option AssetListJson
  pages_to_personalize : List Page
  personalized_pages : List PersonalizationProcessState
  error_occurred : Bool
  error_message : String
  is_retry_step : Bool
deriving Repr, DecidableEq

/-- `handle_error_preparation_process(state, node)`:
on a retried step, or always for `"FetchData"`, it marks the request as
failed; otherwise it sets the retry flag and re-invokes the failing node.
The Python function calls `analyze_company_node` / 
`decide_pages_to_personalize_node` directly; those mutually recursive
re-invocations are passed in as continuations (`retryAnalyze`,
`retryDecide`), with `pure0` embedding a plain state into the caller's
return type. -/
def handle_error_preparation_process {σ : Type}
    (state : PreparationState) (node : String)
    (pure0 : PreparationState → σ)
    (retryAnalyze : PreparationState → σ)
    (retryDecide : PreparationState → σ) : σ :=
  if state.is_retry_step || node == "FetchData" then
    pure0 { state with error_occurred := true }
  else
    let state1 := { state with is_retry_step := true }
    if node == "analyzeCompany" then retryAnalyze state1
    else if node == "DecidePagesToPers" then retryDecide state1
    else pure0 state1

/-- Outcomes of the external reads and LLM calls of the preparation graph.
The three HTTP reads of `fetch_data_node` happen exactly once each, so they
are single values; the two LLM-driven nodes can be re-invoked by the retry
logic, so their outcomes are streams consumed one per invocation. -/
structure PrepEnv where
  pagesResult : Except String PageListJson
  assetsResult : Except String AssetListJson
  profileResult : Except String ProfileJson
  analyzeResp : Nat → Except String CompanyInformationResp
  decideResp : Nat → Except String PagesChoice

/-- `fetch_data_node`: initializes the error flags, then performs the CMS
pages read, the CMS assets read and the CDP profile read in order; the
first failing read goes to `handle_error_preparation_process` with node
`"FetchData"` (immediately fatal, no retry) and the node returns. -/
def fetch_data_node (env : PrepEnv) (state : PreparationState) :
    PreparationState :=
  let state0 := { state with error_occurred := false, is_retry_step := false }
  match env.pagesResult with
  | .error e =>
      handle_error_preparation_process
        { state0 with
            error_message := "An error occurred while retrieving pages from CMS: " ++ e }
        "FetchData" id id id
  | .ok page_list =>
      let state1 := { state0 with page_list := some page_list }
      match env.assetsResult with
      | .error e =>
          handle_error_preparation_process
            { state1 with
                error_message := "An error occurred while retrieving assets from CMS: " ++ e }
            "FetchData" id id id
      | .ok asset_list =>
          let state2 := { state1 with asset_list := some asset_list }
          match env.profileResult with
          | .error e =>
              handle_error_preparation_process
                { state2 with
                    error_message := "An error occurred while retrieving customer information from CDP: " ++ e }
                "FetchData" id id id
          | .ok customer_profile =>
              { state2 with customer_profile := some customer_profile }

/-- The `customer_information` dict literal built on a successful analysis
(lines 246-251 of `app.py`): sentinel values (`-1` company size,
`"not found"` country) are omitted instead of stored. -/
def buildCustomerInformation (r : CompanyInformationResp)
    (customer_uid : String) : CustomerInformation :=
  { industry := r.industry,
    customer_uid := customer_uid,
    company_size := if r.company_size ≠ -1 then some r.company_size else none,
    country := if r.country ≠ "not found" then some r.country else none }

/-- `analyze_company_node`, with an explicit fuel for the bounded mutual
recursion through `handle_error_preparation_process` (the handler
re-invokes the node on a first failure, and the organization-path
`"not found"` branch additionally re-invokes it once more after the
handler returns — line 262 of `app.py` — so at most three nested
invocations ever occur; fuel `5` is therefore never exhausted on the
source's control flow).  `idx` indexes the stream of research-agent
outcomes: each actual agent invocation consumes one entry, so the returned
index counts how often the agent ran. -/
def analyze_company_go (resp : Nat → Except String CompanyInformationResp) :
    Nat → Nat → PreparationState → PreparationState × Nat
  | 0, idx, state => (state, idx)
  | fuel + 1, idx, state =>
      if state.error_occurred then (state, idx)
      else
        match state.customer_profile.bind ProfileJson.email_domain,
              state.customer_organization with
        | none, none =>
            ({ state with
                error_message := "An error occurred when analyzing the email domain: user has no IP organization or known email, personalization is not therefor not possible",
                error_occurred := true }, idx)
        | some email_domain_to_analyze, _ =>
            if email_domain_to_analyze = "gmail.com" ∨
                email_domain_to_analyze = "outlook.com" then
              ({ state with
                  error_message := "Email address is not a business email, therefor domain can't be analyzed",
                  error_occurred := true }, idx)
            else
              match resp idx with
              | .error e =>
                  handle_error_preparation_process
                    { state with
                        error_message := "An error occurred when analyzing the email domain: " ++ e }
                    "analyzeCompany"
                    (fun s => (s, idx + 1))
                    (fun s => analyze_company_go resp fuel (idx + 1) s)
                    (fun s => (s, idx + 1))
              | .ok response =>
                  if response.industry ≠ "not found" then
                    ({ state with
                        customer_information :=
                          some (buildCustomerInformation response state.customer_uid) },
                     idx + 1)
                  else
                    handle_error_preparation_process
                      { state with
                          error_message := "Unable to find the industry of the email domain: " ++ email_domain_to_analyze }
                      "analyzeCompany"
                      (fun s => (s, idx + 1))
                      (fun s => analyze_company_go resp fuel (idx + 1) s)
                      (fun s => (s, idx + 1))
        | none, some customer_organization =>
            match resp idx with
            | .error e =>
                handle_error_preparation_process
                  { state with
                      error_message := "An error occurred when analyzing the email domain: " ++ e }
                  "analyzeCompany"
                  (fun s => (s, idx + 1))
                  (fun s => analyze_company_go resp fuel (idx + 1) s)
                  (fun s => (s, idx + 1))
            | .ok response =>
                if response.industry ≠ "not found" then
                  ({ state with
                      customer_information :=
                        some (buildCustomerInformation response state.customer_uid) },
                   idx + 1)
                else
                  let r2 :=
                    handle_error_preparation_process
                      { state with
                          error_message := "Unable to find the industry of the company: " ++ customer_organization }
                      "analyzeCompany"
                      (fun s => (s, idx + 1))
                      (fun s => analyze_company_go resp fuel (idx + 1) s)
                      (fun s => (s, idx + 1))
                  analyze_company_go resp fuel r2.2 r2.1

/-- `analyze_company_node` as called by the graph (fresh response index). -/
def analyze_company_node (resp : Nat → Except String CompanyInformationResp)
    (state : PreparationState) : PreparationState × Nat :=
  analyze_company_go resp 5 0 state

/-- `decide_pages_to_personalize_node`, fuel-indexed like
`analyze_company_go` (handler recursion depth is at most two here).
Reading `customer_information["industry"]` or `page_list["entries"]` with
the key absent raises inside the `try` before the model is invoked, hence
the handler fallthrough without consuming a response.  The title-resolution
double loop keeps every entry whose title matches a chosen title and whose
block list is nonempty (pages without blocks are skipped with a log
line). -/
def decide_pages_go (resp : Nat → Except String PagesChoice) :
    Nat → Nat → PreparationState → PreparationState × Nat
  | 0, idx, state => (state, idx)
  | fuel + 1, idx, state =>
      if state.error_occurred then (state, idx)
      else
        match state.customer_information, state.page_list with
        | some _, some page_list =>
            (match resp idx with
             | .error e =>
                 handle_error_preparation_process
                   { state with
                       error_message := "Agent was unable to decide what pages should be personalized: " ++ e }
                   "DecidePagesToPers"
                   (fun s => (s, idx + 1))
                   (fun s => (s, idx + 1))
                   (fun s => decide_pages_go resp fuel (idx + 1) s)
             | .ok response =>
                 let pages_to_personalize :=
                   response.pages_that_require_personalization.flatMap
                     (fun page_title_to_personalize =>
                       page_list.entries.filter
                         (fun page =>
                           decide (page_title_to_personalize = page.title) &&
                           decide (page.blocks ≠ [])))
                 ({ state with pages_to_personalize := pages_to_personalize },
                  idx + 1))
        | _, _ =>
            handle_error_preparation_process
              { state with
                  error_message := "Agent was unable to decide what pages should be personalized: KeyError" }
              "DecidePagesToPers"
              (fun s => (s, idx))
              (fun s => (s, idx))
              (fun s => decide_pages_go resp fuel idx s)

/-- `decide_pages_to_personalize_node` as called by the graph. -/
def decide_pages_to_personalize_node (resp : Nat → Except String PagesChoice)
    (state : PreparationState) : PreparationState × Nat :=
  decide_pages_go resp 5 0 state

/-- `parallel_processing_node`: launches one personalization-graph run per
selected page (each on a deep copy of the shared base parameters, with a
fresh `is_retry_step = False` and its own page) and gathers the final
states, then flags the whole request as failed if any result page carries
an `"Error"` key (first such result wins, as in the `break` loop).
The store effects of the concurrently running saves are not aggregated
here (no claim is about them); each run is given the `collection`
argument.  The unreachable `KeyError` corner (no customer information /
asset list despite no recorded error) is modelled as the identity. -/
def parallel_processing_node (pageEnvs : Nat → PageEnv) (fuel : Nat)
    (collection : List Page) (state : PreparationState) : PreparationState :=
  if state.error_occurred then state
  else
    match state.customer_information, state.asset_list with
    | some customer_information, some asset_list =>
        let results := state.pages_to_personalize.mapIdx
          (fun i page =>
            (personalization_graph_ainvoke (pageEnvs i) fuel
              { customer_information := customer_information,
                page_to_personalize := PageResult.ok page,
                asset_list := asset_list,
                personalization_queue := [],
                is_retry_step := false } collection).1)
        let state1 := { state with personalized_pages := results }
        match results.find? (fun r => r.page_to_personalize.isErr) with
        | some r =>
            { state1 with
                error_message := r.page_to_personalize.errMsg,
                error_occurred := true }
        | none => state1
    | _, _ => state

/-- `preparation_graph.ainvoke`: the four sequential graph edges. -/
def preparation_graph_ainvoke (env : PrepEnv) (pageEnvs : Nat → PageEnv)
    (fuel : Nat) (collection : List Page) (state : PreparationState) :
    PreparationState :=
  let s1 := fetch_data_node env state
  let s2 := (analyze_company_node env.analyzeResp s1).1
  let s3 := (decide_pages_to_personalize_node env.decideResp s2).1
  parallel_processing_node pageEnvs fuel collection s3

/-! ## Helper lemmas -/

/-- The text write-back loop never changes the number of blocks. -/
theorem updateTexts_length (bs : List Block) (ts : List GeneratedText) :
    (updateTexts bs ts).1.length = bs.length := by
  induction bs generalizing ts with
  | nil => cases ts <;> simp [updateTexts]
  | cons b bs ih => cases ts <;> simp [updateTexts, ih]

/-- The text write-back loop raises exactly when there are more generated
texts than blocks. -/
theorem updateTexts_raises (bs : List Block) (ts : List GeneratedText) :
    (updateTexts bs ts).2 = true ↔ bs.length < ts.length := by
  induction bs generalizing ts with
  | nil => cases ts <;> simp [updateTexts]
  | cons b bs ih => cases ts <;> simp [updateTexts, ih]

/-- Writing an image into the first block with a given uid keeps the
number of blocks. -/
theorem setImageFirst_length (bs : List Block) (u : String) (img : Asset) :
    (setImageFirst bs u img).length = bs.length := by
  induction bs with
  | nil => simp [setImageFirst]
  | cons b rest ih =>
      simp only [setImageFirst]
      split <;> simp [ih]

/-- The image assignment loop never changes the number of blocks. -/
theorem applyImagesLoop_length (us : List String) (bs : List Block)
    (imgs : List Asset) :
    (applyImagesLoop bs us imgs).1.length = bs.length := by
  induction us generalizing bs imgs with
  | nil => simp [applyImagesLoop]
  | cons u us ih =>
      cases imgs with
      | nil => simp [applyImagesLoop]
      | cons img imgs => simp [applyImagesLoop, ih, setImageFirst_length]

/-- The image assignment loop raises its `IndexError` exactly when fewer
images than target blocks were resolved. -/
theorem applyImagesLoop_raises (us : List String) (bs : List Block)
    (imgs : List Asset) :
    (applyImagesLoop bs us imgs).2 = true ↔ imgs.length < us.length := by
  induction us generalizing bs imgs with
  | nil => simp [applyImagesLoop]
  | cons u us ih =>
      cases imgs with
      | nil => simp [applyImagesLoop]
      | cons img imgs => simp [applyImagesLoop, ih]

/-- `count_documents` is zero exactly when no stored document has the
title. -/
theorem count_documents_eq_zero (collection : List Page) (t : String) :
    count_documents collection t = 0 ↔ ∀ d ∈ collection, d.title ≠ t := by
  induction collection with
  | nil => simp [count_documents]
  | cons c rest ih =>
      by_cases hc : c.title = t
      · simp [count_documents, List.filter, hc]
      · simp only [count_documents, List.filter, hc] at ih ⊢
        simp [hc, ih]

/-- Unfolding `count_documents` over a cons cell. -/
theorem count_documents_cons (c : Page) (rest : List Page) (t : String) :
    count_documents (c :: rest) t =
      (if c.title = t then 1 else 0) + count_documents rest t := by
  by_cases hc : c.title = t <;> simp [count_documents, List.filter, hc]
  omega

/-- After `replace_one` on a collection holding exactly one document with
the title, every document with that title is the replacement. -/
theorem replace_one_full_replace (collection : List Page) (t : String)
    (doc : Page) (_hdoc : doc.title = t)
    (hcount : count_documents collection t = 1) :
    ∀ d ∈ replace_one collection t doc, d.title = t → d = doc := by
  induction collection with
  | nil => simp [replace_one]
  | cons c rest ih =>
      intro d hd hdt
      rw [count_documents_cons] at hcount
      by_cases hc : c.title = t
      · simp only [replace_one, if_pos hc] at hd
        rcases List.mem_cons.mp hd with h | h
        · exact h
        · exfalso
          have hrest : count_documents rest t = 0 := by
            rw [if_pos hc] at hcount; omega
          exact (count_documents_eq_zero rest t).mp hrest d h hdt
      · simp only [replace_one, if_neg hc] at hd
        rcases List.mem_cons.mp hd with h | h
        · exact absurd (h ▸ hdt) hc
        · have hrest : count_documents rest t = 1 := by
            rw [if_neg hc] at hcount; omega
          exact ih hrest d h hdt

/-! ## Concrete fixtures used by witnesses and counterexamples -/

/-- A concrete asset catalog entry. -/
def assetA : Asset := { title := "Photo-A", filename := "a.png", description := "", tags := [] }

/-- A second concrete asset catalog entry. -/
def assetB : Asset := { title := "Photo-B", filename := "b.png", description := "", tags := [] }

/-- A concrete block with a given uid. -/
def mkBlock (u : String) : Block :=
  { uid := u, title := "title-" ++ u, copy := "copy-" ++ u, image := none }

/-- A concrete two-block page. -/
def pageTwo : Page :=
  { title := "Home", url := "/home", blocks := [mkBlock "u1", mkBlock "u2"],
    customer_uid := none, extra := [("legacy_field", "old")] }

/-- A concrete three-block page (`[B0, B1, B2]` of the reorder
scenario). -/
def pageThree : Page :=
  { title := "Landing", url := "/landing",
    blocks := [mkBlock "u0", mkBlock "u1", mkBlock "u2"],
    customer_uid := none, extra := [] }

/-- A concrete customer profile. -/
def custInfo : CustomerInformation :=
  { industry := "tech", customer_uid := "cust1", company_size := none, country := none }

/-- A concrete per-page state about to run the image step. -/
def psImage : PersonalizationProcessState :=
  { customer_information := custInfo,
    page_to_personalize := PageResult.ok pageTwo,
    asset_list := { assets := [assetA, assetB] },
    personalization_queue := ["image", "save"],
    is_retry_step := false }

/-- A concrete per-page state about to run the reorder step. -/
def psOrder : PersonalizationProcessState :=
  { customer_information := custInfo,
    page_to_personalize := PageResult.ok pageThree,
    asset_list := { assets := [] },
    personalization_queue := ["order", "save"],
    is_retry_step := false }

/-! ## C9 — router partiality -/

/-- C9: the PageWorkflow router's dispatch is total only when every queue
element is one of `"text"`, `"image"`, `"order"`, `"save"`: the empty
queue routes to the terminal target, a known head routes to its matching
step, but a nonempty queue with any other head string produces no
`Command` at all (`none`, the unassigned-`goto` crash); and
`DecideComponentsToPers` installs the model's step list verbatim (plus the
appended `"save"`) with no membership validation. -/
theorem c9_router_partial_dispatch :
    (∀ s : PersonalizationProcessState,
        (∀ x ∈ s.personalization_queue,
          x = "text" ∨ x = "image" ∨ x = "order" ∨ x = "save") →
        (personalization_router_node s).isSome = true) ∧
    (∀ s : PersonalizationProcessState, s.personalization_queue = [] →
        personalization_router_node s = some RouterTarget.end_) ∧
    (∀ (s : PersonalizationProcessState) (t : List String),
        (s.personalization_queue = "text" :: t →
          personalization_router_node s = some RouterTarget.persTexts) ∧
        (s.personalization_queue = "image" :: t →
          personalization_router_node s = some RouterTarget.persImages) ∧
        (s.personalization_queue = "order" :: t →
          personalization_router_node s = some RouterTarget.persElmtOrder) ∧
        (s.personalization_queue = "save" :: t →
          personalization_router_node s = some RouterTarget.savePersPage)) ∧
    (∀ (s : PersonalizationProcessState) (h : String) (t : List String),
        s.personalization_queue = h :: t →
        h ≠ "text" → h ≠ "image" → h ≠ "order" → h ≠ "save" →
        personalization_router_node s = none) ∧
    (∀ (s : PersonalizationProcessState) (l : List String), l ≠ [] →
        (decide_components_to_personalize_node s
          (Except.ok l)).personalization_queue = l ++ ["save"]) := by
  refine ⟨?_, ?_, ?_, ?_, ?_⟩
  · intro s hmem
    cases hq : s.personalization_queue with
    | nil => simp [personalization_router_node, hq]
    | cons hd tl =>
        have := hmem hd (by rw [hq]; exact List.mem_cons_self hd tl)
        rcases this with h | h | h | h <;>
          simp [personalization_router_node, hq, h]
  · intro s hq; simp [personalization_router_node, hq]
  · intro s t
    refine ⟨?_, ?_, ?_, ?_⟩ <;> intro hq <;>
      simp [personalization_router_node, hq]
  · intro s h t hq h1 h2 h3 h4
    simp [personalization_router_node, hq, h1, h2, h3, h4]
  · intro s l hl
    simp [decide_components_to_personalize_node, hl]

/-- Witness for C9 at concrete inputs: an all-known queue dispatches, an
empty queue terminates, a bogus head `"video"` leaves the router stuck,
and the decide node installs an unvalidated list verbatim. -/
theorem c9_router_partial_dispatch_witness :
    (personalization_router_node
        { psImage with personalization_queue := ["image", "save"] }).isSome = true ∧
    personalization_router_node
        { psImage with personalization_queue := [] } = some RouterTarget.end_ ∧
    personalization_router_node
        { psImage with personalization_queue := ["video", "save"] } = none ∧
    (decide_components_to_personalize_node psImage
        (Except.ok ["video", "banner"])).personalization_queue =
      ["video", "banner", "save"] :=
  ⟨c9_router_partial_dispatch.1 _ (by decide),
   c9_router_partial_dispatch.2.1 _ rfl,
   c9_router_partial_dispatch.2.2.2.1 _ "video" ["save"] rfl
     (by decide) (by decide) (by decide) (by decide),
   c9_router_partial_dispatch.2.2.2.2 _ ["video", "banner"] (by decide)⟩

/-! ## C7 — persistence upsert semantics -/

/-- C7: `Save` upserts by title: with no stored document of the page's
title the (customer-uid-tagged) page is appended as a new document; with a
matching document the first match is fully replaced, so when the store
held exactly one document with that title, every stored document with that
title afterwards IS the new page — in particular an `extra` field of the
old document that the new page does not carry does not survive. -/
theorem c7_save_upsert_by_title (s : PersonalizationProcessState)
    (page : Page) (collection : List Page)
    (hpage : s.page_to_personalize = PageResult.ok page) :
    ((∀ d ∈ collection, d.title ≠ page.title) →
      (save_personalized_page_node s none collection).2 =
        collection ++
          [{ page with customer_uid := some s.customer_information.customer_uid }]) ∧
    (count_documents collection page.title ≠ 0 →
      (save_personalized_page_node s none collection).2 =
        replace_one collection page.title
          { page with customer_uid := some s.customer_information.customer_uid }) ∧
    (count_documents collection page.title = 1 →
      ∀ d ∈ (save_personalized_page_node s none collection).2,
        d.title = page.title →
        d = { page with customer_uid := some s.customer_information.customer_uid } ∧
        ∀ k v, (k, v) ∈ d.extra → (k, v) ∈ page.extra) := by
  refine ⟨?_, ?_, ?_⟩
  · intro hnone
    have hz : count_documents collection page.title = 0 :=
      (count_documents_eq_zero collection page.title).mpr hnone
    cases hq : s.personalization_queue <;>
      simp [save_personalized_page_node, hpage, hq, hz, insert_one,
        handle_error_personalization_process]
  · intro hnz
    cases hq : s.personalization_queue <;>
      simp [save_personalized_page_node, hpage, hq, hnz, insert_one,
        handle_error_personalization_process]
  · intro hone d hd hdt
    have hnz : count_documents collection page.title ≠ 0 := by omega
    have hrepl : (save_personalized_page_node s none collection).2 =
        replace_one collection page.title
          { page with customer_uid := some s.customer_information.customer_uid } := by
      cases hq : s.personalization_queue <;>
        simp [save_personalized_page_node, hpage, hq, hnz, insert_one,
          handle_error_personalization_process]
    rw [hrepl] at hd
    have hde := replace_one_full_replace collection page.title
      { page with customer_uid := some s.customer_information.customer_uid }
      rfl hone d hd hdt
    exact ⟨hde, by intro k v hkv; rw [hde] at hkv; exact hkv⟩

/-- Witness for C7: inserting into a store without the title, replacing in
a store with it — the old `legacy_field` does not survive the replace. -/
theorem c7_save_upsert_by_title_witness :
    ((save_personalized_page_node psImage none []).2 =
      [{ pageTwo with customer_uid := some "cust1" }]) ∧
    (∀ d ∈ (save_personalized_page_node psImage none
        [{ pageTwo with extra := [("legacy_field", "old")] }]).2,
      d.title = pageTwo.title →
      d = { pageTwo with customer_uid := some "cust1" } ∧
      ∀ k v, (k, v) ∈ d.extra → (k, v) ∈ pageTwo.extra) :=
  ⟨(c7_save_upsert_by_title psImage pageTwo [] rfl).1 (by decide),
   (c7_save_upsert_by_title psImage pageTwo
      [{ pageTwo with extra := [("legacy_field", "old")] }] rfl).2.2 (by decide)⟩


/-! ## C6 — AnalyzeCompany success condition and sentinel omission -/

/-- C6: given a structured research result on the email-domain path,
`AnalyzeCompany` succeeds exactly when `industry != "not found"`: on
success it stores a profile whose `company_size` is omitted when the
result reports `-1` and whose `country` is omitted when the result
reports `"not found"` (never the sentinels themselves), consuming exactly
one agent invocation; when the industry stays `"not found"` (also on the
retry) the step fails — the request is marked failed and no profile is
stored. -/
theorem c6_analyze_sentinel_omission
    (resp : Nat → Except String CompanyInformationResp)
    (s : PreparationState) (d : String) (r : CompanyInformationResp)
    (herr : s.error_occurred = false)
    (hd : s.customer_profile.bind ProfileJson.email_domain = some d)
    (h1 : d ≠ "gmail.com") (h2 : d ≠ "outlook.com")
    (hr : resp 0 = Except.ok r) :
    (r.industry ≠ "not found" →
      (analyze_company_node resp s).1.customer_information =
        some { industry := r.industry,
               customer_uid := s.customer_uid,
               company_size :=
                 if r.company_size = -1 then none else some r.company_size,
               country :=
                 if r.country = "not found" then none else some r.country } ∧
      (analyze_company_node resp s).1.error_occurred = false ∧
      (analyze_company_node resp s).2 = 1) ∧
    (r.industry = "not found" → resp 1 = Except.ok r →
      (analyze_company_node resp s).1.error_occurred = true ∧
      (analyze_company_node resp s).1.customer_information =
        s.customer_information) := by
  constructor
  · intro hind
    unfold analyze_company_node
    show ((analyze_company_go resp (4+1) 0 s).1.customer_information = _) ∧ _
    unfold analyze_company_go
    rw [herr, hd, hr]
    simp [h1, h2, hind, buildCustomerInformation, ite_not, herr]
  · intro hind hr1
    unfold analyze_company_node
    show ((analyze_company_go resp (4+1) 0 s).1.error_occurred = true) ∧ _
    unfold analyze_company_go
    rw [herr, hd, hr]
    by_cases hretry : s.is_retry_step
    · simp [handle_error_preparation_process, hretry, h1, h2, hind]
    · simp only [handle_error_preparation_process, hretry, h1, h2, hind]
      unfold analyze_company_go
      simp [herr, hd, hr1, h1, h2, hind, handle_error_preparation_process,
        hretry]

/-- A concrete preparation state right after a successful fetch. -/
def prepFetched : PreparationState :=
  { customer_uid := "cust1",
    customer_organization := none,
    customer_profile := some { email_domain := some "acme.com" },
    customer_information := none,
    page_list := some { entries := [pageThree] },
    asset_list := some { assets := [assetA] },
    pages_to_personalize := [],
    personalized_pages := [],
    error_occurred := false,
    error_message := "",
    is_retry_step := false }

/-- Witness for C6: a research result with `company_size = -1` and
`country = "not found"` yields a profile carrying neither field, and a
persistent `"not found"` industry fails the step. -/
theorem c6_analyze_sentinel_omission_witness :
    ((analyze_company_node
        (fun _ => Except.ok ⟨-1, "tech", "not found", ""⟩)
        prepFetched).1.customer_information =
      some { industry := "tech", customer_uid := "cust1",
             company_size := none, country := none }) ∧
    ((analyze_company_node
        (fun _ => Except.ok ⟨10, "not found", "NL", ""⟩)
        prepFetched).1.error_occurred = true) :=
  ⟨(((c6_analyze_sentinel_omission
      (fun _ => Except.ok ⟨-1, "tech", "not found", ""⟩)
      prepFetched "acme.com" ⟨-1, "tech", "not found", ""⟩
      rfl rfl (by decide) (by decide) rfl).1 (by decide)).1),
   (((c6_analyze_sentinel_omission
      (fun _ => Except.ok ⟨10, "not found", "NL", ""⟩)
      prepFetched "acme.com" ⟨10, "not found", "NL", ""⟩
      rfl rfl (by decide) (by decide) rfl).2 rfl rfl).1)⟩

/-! ## C10 — the personal-webmail rejection -/

/-- C10: the webmail rejection compares the email domain against exactly
the two literals `"gmail.com"` and `"outlook.com"` — for those the node
fails without ever invoking the research agent (zero responses consumed);
every other email domain proceeds to company analysis (one agent
invocation, success on a found industry); and on the organization path
the check is never applied, whatever the organization string (including
`"gmail.com"` itself). -/
theorem c10_webmail_rejection_literals
    (resp : Nat → Except String CompanyInformationResp)
    (s : PreparationState) (herr : s.error_occurred = false) :
    ((s.customer_profile.bind ProfileJson.email_domain = some "gmail.com" ∨
      s.customer_profile.bind ProfileJson.email_domain = some "outlook.com") →
      (analyze_company_node resp s).1.error_occurred = true ∧
      (analyze_company_node resp s).2 = 0) ∧
    (∀ d r, s.customer_profile.bind ProfileJson.email_domain = some d →
      d ≠ "gmail.com" → d ≠ "outlook.com" →
      resp 0 = Except.ok r → r.industry ≠ "not found" →
      (analyze_company_node resp s).1.error_occurred = false ∧
      (analyze_company_node resp s).2 = 1) ∧
    (∀ org r, s.customer_profile.bind ProfileJson.email_domain = none →
      s.customer_organization = some org →
      resp 0 = Except.ok r → r.industry ≠ "not found" →
      (analyze_company_node resp s).1.error_occurred = false ∧
      (analyze_company_node resp s).2 = 1) := by
  refine ⟨?_, ?_, ?_⟩
  · intro hd
    unfold analyze_company_node
    show ((analyze_company_go resp (4+1) 0 s).1.error_occurred = true) ∧ _
    unfold analyze_company_go
    rcases hd with hd | hd <;> rw [herr, hd] <;> simp
  · intro d r hd h1 h2 hr hind
    unfold analyze_company_node
    show ((analyze_company_go resp (4+1) 0 s).1.error_occurred = false) ∧ _
    unfold analyze_company_go
    rw [herr, hd, hr]
    simp [h1, h2, hind, herr]
  · intro org r hd horg hr hind
    unfold analyze_company_node
    show ((analyze_company_go resp (4+1) 0 s).1.error_occurred = false) ∧ _
    unfold analyze_company_go
    rw [herr, hd, horg, hr]
    simp [hind, herr]

/-- Witness for C10: `gmail.com` is rejected without an agent call;
`protonmail.com` (another free-mail provider) is analyzed like a corporate
domain; an organization literally named `"gmail.com"` is analyzed too. -/
theorem c10_webmail_rejection_literals_witness :
    ((analyze_company_node (fun _ => Except.ok ⟨10, "tech", "NL", ""⟩)
        { prepFetched with
            customer_profile := some { email_domain := some "gmail.com" } }).1.error_occurred
      = true) ∧
    ((analyze_company_node (fun _ => Except.ok ⟨10, "tech", "NL", ""⟩)
        { prepFetched with
            customer_profile := some { email_domain := some "protonmail.com" } }).1.error_occurred
      = false) ∧
    ((analyze_company_node (fun _ => Except.ok ⟨10, "tech", "NL", ""⟩)
        { prepFetched with
            customer_profile := none,
            customer_organization := some "gmail.com" }).1.error_occurred
      = false) :=
  ⟨((c10_webmail_rejection_literals (fun _ => Except.ok ⟨10, "tech", "NL", ""⟩)
      { prepFetched with
          customer_profile := some { email_domain := some "gmail.com" } }
      rfl).1 (Or.inl rfl)).1,
   ((c10_webmail_rejection_literals (fun _ => Except.ok ⟨10, "tech", "NL", ""⟩)
      { prepFetched with
          customer_profile := some { email_domain := some "protonmail.com" } }
      rfl).2.1 "protonmail.com"
      ⟨10, "tech", "NL", ""⟩ rfl (by decide) (by decide) rfl (by decide)).1,
   ((c10_webmail_rejection_literals (fun _ => Except.ok ⟨10, "tech", "NL", ""⟩)
      { prepFetched with
          customer_profile := none,
          customer_organization := some "gmail.com" }
      rfl).2.2 "gmail.com"
      ⟨10, "tech", "NL", ""⟩ rfl rfl rfl (by decide)).1⟩

/-! ## C3 — image resolution policy -/

/-- C3 (amended): `PersonalizeImages` is treated as failed only when no
returned uid resolves against the page's blocks, or when fewer titles
resolve against the asset catalog than uids resolve (the `IndexError`
case) — and in that case the resolved images have already been applied in
place to a prefix of the resolved blocks, a partial placement that
persists into the retry attempt; when at least as many titles resolve as
uids, unresolved titles and uids are silently dropped and the positionally
collapsed pairs are applied as a success.  Failure consumes the usual
retry (flag set on a first failure; emptied queue and Error page on a
repeated one). -/
theorem c3_images_resolution_policy (s : PersonalizationProcessState)
    (page : Page) (resp : ImagesResponse) (q0 : String) (qrest : List String)
    (hpage : s.page_to_personalize = PageResult.ok page)
    (hq : s.personalization_queue = q0 :: qrest) :
    (resp.block_uids.filter
        (fun u => (page.blocks.find? (fun b => b.uid = u)).isSome) ≠ [] →
     (resp.block_uids.filter
        (fun u => (page.blocks.find? (fun b => b.uid = u)).isSome)).length ≤
       (resp.titles.filterMap
        (fun t => s.asset_list.assets.find? (fun a => a.title = t))).length →
     personalize_images_node s (Except.ok resp) =
       { s with
           page_to_personalize := PageResult.ok
             { page with blocks :=
                 (applyImagesLoop page.blocks
                   (resp.block_uids.filter
                     (fun u => (page.blocks.find? (fun b => b.uid = u)).isSome))
                   (resp.titles.filterMap
                     (fun t => s.asset_list.assets.find? (fun a => a.title = t)))).1 },
           personalization_queue := qrest,
           is_retry_step := false }) ∧
    (resp.block_uids.filter
        (fun u => (page.blocks.find? (fun b => b.uid = u)).isSome) = [] →
     personalize_images_node s (Except.ok resp) =
       handle_error_personalization_process s
         "An error occurred when personalizing the image of page: one or more of the chosen images or blocks do not exist.") ∧
    (resp.block_uids.filter
        (fun u => (page.blocks.find? (fun b => b.uid = u)).isSome) ≠ [] →
     (resp.titles.filterMap
        (fun t => s.asset_list.assets.find? (fun a => a.title = t))).length <
       (resp.block_uids.filter
        (fun u => (page.blocks.find? (fun b => b.uid = u)).isSome)).length →
     personalize_images_node s (Except.ok resp) =
       handle_error_personalization_process
         { s with
             page_to_personalize := PageResult.ok
               { page with blocks :=
                   (applyImagesLoop page.blocks
                     (resp.block_uids.filter
                       (fun u => (page.blocks.find? (fun b => b.uid = u)).isSome))
                     (resp.titles.filterMap
                       (fun t => s.asset_list.assets.find? (fun a => a.title = t)))).1 } }
         "An error occurred when personalizing the image of page: list index out of range") := by
  refine ⟨?_, ?_, ?_⟩
  · intro hne hlen
    have hnz : (resp.block_uids.filter
        (fun u => (page.blocks.find? (fun b => b.uid = u)).isSome)).length ≠ 0 := by
      simpa [List.length_eq_zero] using hne
    have hnr : (applyImagesLoop page.blocks
        (resp.block_uids.filter
          (fun u => (page.blocks.find? (fun b => b.uid = u)).isSome))
        (resp.titles.filterMap
          (fun t => s.asset_list.assets.find? (fun a => a.title = t)))).2 = false := by
      rw [Bool.eq_false_iff]
      intro hcon
      rw [applyImagesLoop_raises] at hcon
      omega
    simp [personalize_images_node, hpage, hnz, hnr, hq]
  · intro hnil
    have hz : (resp.block_uids.filter
        (fun u => (page.blocks.find? (fun b => b.uid = u)).isSome)).length = 0 := by
      simp [hnil]
    simp [personalize_images_node, hpage, hz]
  · intro hne hlen
    have hnz : (resp.block_uids.filter
        (fun u => (page.blocks.find? (fun b => b.uid = u)).isSome)).length ≠ 0 := by
      simpa [List.length_eq_zero] using hne
    have hr : (applyImagesLoop page.blocks
        (resp.block_uids.filter
          (fun u => (page.blocks.find? (fun b => b.uid = u)).isSome))
        (resp.titles.filterMap
          (fun t => s.asset_list.assets.find? (fun a => a.title = t)))).2 = true := by
      rw [applyImagesLoop_raises]; omega
    simp [personalize_images_node, hpage, hnz, hr]

/-- Witness for C3 (amended): on the spec's own scenario — catalog without
`"Photo-X"`, `titles=["Photo-A","Photo-X"]`, `block_uids=["u1","u2"]` —
only one title resolves against two resolved uids, so the node fails after
having already placed `Photo-A` on block `u1` in place. -/
theorem c3_images_resolution_policy_witness :
    personalize_images_node psImage
        (Except.ok { titles := ["Photo-A", "Photo-X"],
                     block_uids := ["u1", "u2"], explanation := [] }) =
      handle_error_personalization_process
        { psImage with
            page_to_personalize := PageResult.ok
              { pageTwo with blocks :=
                  [{ mkBlock "u1" with image := some assetA }, mkBlock "u2"] } }
        "An error occurred when personalizing the image of page: list index out of range" := by
  have h := (c3_images_resolution_policy psImage pageTwo
      { titles := ["Photo-A", "Photo-X"], block_uids := ["u1", "u2"],
        explanation := [] }
      "image" ["save"] rfl rfl).2.2 (by decide) (by decide)
  rw [h]
  decide

/-- Counterexample to C3 as stated: with catalog `[Photo-A, Photo-B]`,
`titles=["Photo-A","Photo-X"]` and `block_uids=["u1"]`, the title
`"Photo-X"` does not resolve against the asset catalog, yet the step is
NOT treated as failed: the queue head is popped, the retry flag stays
clear, no Error page is produced, and `Photo-A` is placed on `u1`. -/
theorem c3_images_resolution_policy_counterexample :
    (psImage.asset_list.assets.find? (fun a => a.title = "Photo-X") = none) ∧
    (personalize_images_node psImage
        (Except.ok { titles := ["Photo-A", "Photo-X"],
                     block_uids := ["u1"], explanation := [] }) =
      { psImage with
          page_to_personalize := PageResult.ok
            { pageTwo with blocks :=
                [{ mkBlock "u1" with image := some assetA }, mkBlock "u2"] },
          personalization_queue := ["save"],
          is_retry_step := false }) := by
  constructor
  · decide
  · decide

/-! ## C4 — reorder block identity -/

/-- In a block list with pairwise-distinct uids, scanning for a member's
uid finds exactly that member. -/
theorem find_uid_of_nodup (rest : List Block)
    (hnd : (rest.map Block.uid).Nodup) (b : Block) (hb : b ∈ rest) :
    rest.find? (fun block => block.uid = b.uid) = some b := by
  induction rest with
  | nil => cases hb
  | cons c rest ih =>
      rcases List.mem_cons.mp hb with hb | hb
      · subst hb
        simp [List.find?]
      · simp only [List.map_cons, List.nodup_cons] at hnd
        have hne : ¬ (c.uid = b.uid) := by
          intro hcon
          exact hnd.1 (hcon ▸ List.mem_map_of_mem Block.uid hb)
        simp [List.find?, hne, ih hnd.2 hb]

/-- A `filterMap` whose function recovers each element is the identity. -/
theorem filterMap_find_self (g : String → Option Block) :
    ∀ (l : List Block), (∀ b ∈ l, g b.uid = some b) →
      l.filterMap (fun b => g b.uid) = l := by
  intro l hl
  induction l with
  | nil => rfl
  | cons b l ih =>
      rw [List.filterMap_cons, hl b (List.mem_cons_self b l)]
      rw [ih (fun x hx => hl x (List.mem_cons_of_mem b hx))]

/-- Elements on which the function returns `none` can be filtered away
before a `filterMap`. -/
theorem filterMap_eq_filterMap_filter (g : String → Option Block) :
    ∀ (l : List String),
      l.filterMap g = (l.filter (fun u => (g u).isSome)).filterMap g := by
  intro l
  induction l with
  | nil => rfl
  | cons u us ih =>
      cases hg : g u <;>
        simp [List.filterMap_cons, List.filter, hg, ih]

/-- Core of the reorder invariant: when the non-pinned blocks have
pairwise-distinct uids and the model's ordering names each of those uids
exactly once (invented uids allowed, they are discarded), the rebuilt
remainder list is a permutation of the original remainder. -/
theorem reorder_perm_core (rest : List Block) (ord : List String)
    (hnd : (rest.map Block.uid).Nodup)
    (hcount : ∀ u ∈ rest.map Block.uid, ord.count u = 1) :
    (ord.filterMap
        (fun uid => rest.find? (fun block => block.uid = uid))).Perm rest := by
  set g : String → Option Block :=
    fun uid => rest.find? (fun block => block.uid = uid) with hg
  have hsome : ∀ u, (g u).isSome = true ↔ u ∈ rest.map Block.uid := by
    intro u
    rw [hg]
    simp only [List.find?_isSome, List.mem_map]
    constructor
    · rintro ⟨x, hx, hxu⟩
      exact ⟨x, hx, by simpa using hxu⟩
    · rintro ⟨x, hx, hxu⟩
      exact ⟨x, hx, by simp [hxu]⟩
  have hmatched : (ord.filter (fun u => (g u).isSome)).Perm (rest.map Block.uid) := by
    rw [List.perm_iff_count]
    intro u
    by_cases hu : u ∈ rest.map Block.uid
    · rw [List.count_filter (by simpa using (hsome u).mpr hu)]
      rw [hcount u hu, List.count_eq_one_of_mem hnd hu]
    · have h0 : List.count u (List.filter (fun u => (g u).isSome) ord) = 0 := by
        rw [List.count_eq_zero]
        intro hmem
        have := (List.mem_filter.mp hmem).2
        exact hu ((hsome u).mp (by simpa using this))
      rw [h0, Eq.comm, List.count_eq_zero]
      exact fun hmem => hu hmem
  rw [filterMap_eq_filterMap_filter g ord]
  have h2 := List.Perm.filterMap g hmatched
  rw [List.filterMap_map Block.uid g rest] at h2
  simp only [Function.comp_def] at h2
  rw [filterMap_find_self g rest
      (fun b hb => find_uid_of_nodup rest hnd b hb)] at h2
  exact h2

/-- C4 (amended): for `ReorderBlocks`, when the model's returned ordering
is nonempty and names the uid of each non-first block exactly once (uids
of the page being pairwise distinct; invented uids are discarded), the
output block sequence is a permutation of the input with the first block
fixed, the multisets of block uids and of block content fields are
unchanged, and a single-block page is left untouched; the queue head is
popped.  Without the exactly-once condition, omitted uids DROP their
blocks and duplicated uids duplicate them (see the counterexample), so
the unconditional permutation statement of the claim fails.  The spec's
example scenario (response `[u2, u1]` on blocks `[u0, u1, u2]` giving
`[u0, u2, u1]`) is the final conjunct. -/
theorem c4_reorder_block_identity (s : PersonalizationProcessState)
    (page : Page) (b0 : Block) (rest : List Block) (resp : GeneratedOrder)
    (q0 : String) (qrest : List String)
    (hpage : s.page_to_personalize = PageResult.ok page)
    (hblocks : page.blocks = b0 :: rest)
    (hq : s.personalization_queue = q0 :: qrest)
    (hnd : (rest.map Block.uid).Nodup)
    (hord : resp.block_order ≠ [])
    (hcount : ∀ u ∈ rest.map Block.uid, resp.block_order.count u = 1) :
    (∃ page2,
      (personalize_element_order_node s
          (Except.ok resp)).page_to_personalize = PageResult.ok page2 ∧
      page2.blocks.Perm page.blocks ∧
      page2.blocks.head? = some b0 ∧
      (page2.blocks.map Block.uid).Perm (page.blocks.map Block.uid) ∧
      (page2.blocks.map (fun b => (b.uid, b.title, b.copy, b.image))).Perm
        (page.blocks.map (fun b => (b.uid, b.title, b.copy, b.image))) ∧
      (rest = [] → page2.blocks = page.blocks) ∧
      (personalize_element_order_node s
          (Except.ok resp)).personalization_queue = qrest) ∧
    (personalize_element_order_node psOrder
        (Except.ok { block_order := ["u2", "u1"], explanation := "" })).page_to_personalize =
      PageResult.ok { pageThree with
        blocks := [mkBlock "u0", mkBlock "u2", mkBlock "u1"] } := by
  constructor
  · have hperm := reorder_perm_core rest resp.block_order hnd hcount
    refine ⟨{ page with blocks := b0 :: resp.block_order.filterMap (fun uid => rest.find? (fun block => block.uid = uid)) }, ?_, ?_, ?_, ?_, ?_, ?_, ?_⟩
    · simp [personalize_element_order_node, hpage, hblocks, hord, hq]
    · simpa [hblocks] using List.Perm.cons b0 hperm
    · rfl
    · exact List.Perm.map Block.uid (by simpa [hblocks] using List.Perm.cons b0 hperm)
    · exact List.Perm.map _ (by simpa [hblocks] using List.Perm.cons b0 hperm)
    · intro hrest
      subst hrest
      simp [hblocks, List.find?]
    · simp [personalize_element_order_node, hpage, hblocks, hord, hq]
  · decide

/-- Witness for C4 at concrete inputs: reordering `[u0, u1, u2]` by the
response `[u2, u1]` permutes the blocks with `u0` fixed and pops the
queue. -/
theorem c4_reorder_block_identity_witness :
    ∃ page2,
      (personalize_element_order_node psOrder
          (Except.ok { block_order := ["u2", "u1"], explanation := "" })).page_to_personalize =
        PageResult.ok page2 ∧
      page2.blocks.Perm pageThree.blocks ∧
      page2.blocks.head? = some (mkBlock "u0") ∧
      (page2.blocks.map Block.uid).Perm (pageThree.blocks.map Block.uid) ∧
      (page2.blocks.map (fun b => (b.uid, b.title, b.copy, b.image))).Perm
        (pageThree.blocks.map (fun b => (b.uid, b.title, b.copy, b.image))) ∧
      ([mkBlock "u1", mkBlock "u2"] = ([] : List Block) → page2.blocks = pageThree.blocks) ∧
      (personalize_element_order_node psOrder
          (Except.ok { block_order := ["u2", "u1"], explanation := "" })).personalization_queue = ["save"] :=
  (c4_reorder_block_identity psOrder pageThree (mkBlock "u0")
    [mkBlock "u1", mkBlock "u2"]
    { block_order := ["u2", "u1"], explanation := "" }
    "order" ["save"] rfl rfl rfl (by decide) (by decide) (by decide)).1

/-- Counterexample to C4 as stated: a model response that omits `u1`
(`block_order = ["u2"]`) makes the node DROP block `u1` — the output
`[u0, u2]` is not a permutation of the input `[u0, u1, u2]`. -/
theorem c4_reorder_block_identity_counterexample :
    (personalize_element_order_node psOrder
        (Except.ok { block_order := ["u2"], explanation := "" })).page_to_personalize =
      PageResult.ok { pageThree with blocks := [mkBlock "u0", mkBlock "u2"] } ∧
    ¬ ([mkBlock "u0", mkBlock "u2"] : List Block).Perm pageThree.blocks := by
  constructor
  · decide
  · intro hcon
    have := hcon.length_eq
    simp [pageThree] at this

/-! ## C5 — preparation retry policy -/

/-- A node invocation entered with the error flag set returns
immediately. -/
theorem analyze_company_go_on_error
    (resp : Nat → Except String CompanyInformationResp)
    (fuel idx : Nat) (s : PreparationState) (h : s.error_occurred = true) :
    analyze_company_go resp fuel idx s = (s, idx) := by
  cases fuel <;> simp [analyze_company_go, h]

/-- Organization path, found industry: one invocation, profile stored. -/
theorem analyze_company_go_org_found
    (resp : Nat → Except String CompanyInformationResp)
    (fuel idx : Nat) (s : PreparationState) (org : String)
    (r : CompanyInformationResp) (hfuel : fuel ≠ 0)
    (herr : s.error_occurred = false)
    (hd : s.customer_profile.bind ProfileJson.email_domain = none)
    (horg : s.customer_organization = some org)
    (hr : resp idx = Except.ok r) (hind : r.industry ≠ "not found") :
    analyze_company_go resp fuel idx s =
      ({ s with customer_information := some (buildCustomerInformation r s.customer_uid) }, idx + 1) := by
  obtain ⟨fuel, rfl⟩ := Nat.exists_eq_succ_of_ne_zero hfuel
  conv_lhs => rw [analyze_company_go]
  rw [herr, hd, horg, hr]
  simp [hind]

/-- Organization path, not-found industry with the retry flag already set:
the handler is fatal and the stray re-invocation (line 262) no-ops on the
error state. -/
theorem analyze_company_go_org_notfound_fatal
    (resp : Nat → Except String CompanyInformationResp)
    (fuel idx : Nat) (s : PreparationState) (org : String)
    (r : CompanyInformationResp) (hfuel : fuel ≠ 0)
    (herr : s.error_occurred = false) (hflag : s.is_retry_step = true)
    (hd : s.customer_profile.bind ProfileJson.email_domain = none)
    (horg : s.customer_organization = some org)
    (hr : resp idx = Except.ok r) (hind : r.industry = "not found") :
    analyze_company_go resp fuel idx s =
      ({ s with
          error_message := "Unable to find the industry of the company: " ++ org,
          error_occurred := true }, idx + 1) := by
  obtain ⟨fuel, rfl⟩ := Nat.exists_eq_succ_of_ne_zero hfuel
  conv_lhs => rw [analyze_company_go]
  rw [herr, hd, horg, hr]
  simp [hind, handle_error_preparation_process, hflag,
    analyze_company_go_on_error]

/-- Organization path, not-found industry on a fresh flag: the handler
retries the node, and afterwards line 262 re-invokes it once more on
whatever state the retry produced. -/
theorem analyze_company_go_org_notfound_first
    (resp : Nat → Except String CompanyInformationResp)
    (fuel idx : Nat) (s : PreparationState) (org : String)
    (r : CompanyInformationResp) (hfuel : fuel ≠ 0)
    (herr : s.error_occurred = false) (hflag : s.is_retry_step = false)
    (hd : s.customer_profile.bind ProfileJson.email_domain = none)
    (horg : s.customer_organization = some org)
    (hr : resp idx = Except.ok r) (hind : r.industry = "not found") :
    analyze_company_go resp fuel idx s =
      analyze_company_go resp (fuel - 1)
        ((analyze_company_go resp (fuel - 1) (idx + 1)
          { s with
              error_message := "Unable to find the industry of the company: " ++ org,
              is_retry_step := true }).2)
        ((analyze_company_go resp (fuel - 1) (idx + 1)
          { s with
              error_message := "Unable to find the industry of the company: " ++ org,
              is_retry_step := true }).1) := by
  obtain ⟨fuel, rfl⟩ := Nat.exists_eq_succ_of_ne_zero hfuel
  conv_lhs => rw [analyze_company_go]
  rw [herr, hd, horg, hr]
  simp [hind, handle_error_preparation_process, hflag]

/-- C5 (amended): the preparation retries share one never-reset flag and
are therefore NOT independent.  (a) On the email path a first agent
exception with a clear flag is retried exactly once (two invocations) and
a successful retry leaves the flag set.  (b) With the flag already set —
e.g. consumed by AnalyzeCompany — the FIRST failure of
DecidePagesToPersonalize is immediately fatal, with no retry (one
invocation).  (c) Only with a clear flag does DecidePagesToPersonalize get
its fail-once-then-succeed retry (two invocations).  (d) On the
organization path a "not found" result is re-attempted TWICE, not once:
after a successful in-handler retry, line 262 re-invokes the node and a
"not found" there is fatal (three invocations) although the retry had
succeeded. -/
theorem c5_shared_retry_flag_policy :
    (∀ (resp : Nat → Except String CompanyInformationResp)
       (s : PreparationState) (d e : String) (r : CompanyInformationResp),
      s.error_occurred = false → s.is_retry_step = false →
      s.customer_profile.bind ProfileJson.email_domain = some d →
      d ≠ "gmail.com" → d ≠ "outlook.com" →
      resp 0 = Except.error e → resp 1 = Except.ok r →
      r.industry ≠ "not found" →
      (analyze_company_node resp s).1.customer_information =
        some (buildCustomerInformation r s.customer_uid) ∧
      (analyze_company_node resp s).1.error_occurred = false ∧
      (analyze_company_node resp s).1.is_retry_step = true ∧
      (analyze_company_node resp s).2 = 2) ∧
    (∀ (dresp : Nat → Except String PagesChoice)
       (s : PreparationState) (e : String) (ci : CustomerInformation)
       (pl : PageListJson),
      s.error_occurred = false → s.is_retry_step = true →
      s.customer_information = some ci → s.page_list = some pl →
      dresp 0 = Except.error e →
      (decide_pages_to_personalize_node dresp s).1.error_occurred = true ∧
      (decide_pages_to_personalize_node dresp s).2 = 1) ∧
    (∀ (dresp : Nat → Except String PagesChoice)
       (s : PreparationState) (e : String) (ci : CustomerInformation)
       (pl : PageListJson) (pc : PagesChoice),
      s.error_occurred = false → s.is_retry_step = false →
      s.customer_information = some ci → s.page_list = some pl →
      dresp 0 = Except.error e → dresp 1 = Except.ok pc →
      (decide_pages_to_personalize_node dresp s).1.error_occurred = false ∧
      (decide_pages_to_personalize_node dresp s).1.is_retry_step = true ∧
      (decide_pages_to_personalize_node dresp s).2 = 2) ∧
    (∀ (resp : Nat → Except String CompanyInformationResp)
       (s : PreparationState) (org : String)
       (r0 r1 r2 : CompanyInformationResp),
      s.error_occurred = false → s.is_retry_step = false →
      s.customer_profile.bind ProfileJson.email_domain = none →
      s.customer_organization = some org →
      resp 0 = Except.ok r0 → r0.industry = "not found" →
      resp 1 = Except.ok r1 → r1.industry ≠ "not found" →
      resp 2 = Except.ok r2 → r2.industry = "not found" →
      (analyze_company_node resp s).1.error_occurred = true ∧
      (analyze_company_node resp s).2 = 3) := by
  refine ⟨?_, ?_, ?_, ?_⟩
  · intro resp s d e r herr hflag hd h1 h2 hr0 hr1 hind
    unfold analyze_company_node
    show ((analyze_company_go resp (4+1) 0 s).1.customer_information = _) ∧ _
    unfold analyze_company_go
    rw [herr, hd, hr0]
    simp only [handle_error_preparation_process, hflag, h1, h2]
    unfold analyze_company_go
    simp [herr, hd, hr1, h1, h2, hind, hflag]
  · intro dresp s e ci pl herr hflag hci hpl hr0
    unfold decide_pages_to_personalize_node
    show ((decide_pages_go dresp (4+1) 0 s).1.error_occurred = true) ∧ _
    unfold decide_pages_go
    rw [herr, hci, hpl, hr0]
    simp [handle_error_preparation_process, hflag]
  · intro dresp s e ci pl pc herr hflag hci hpl hr0 hr1
    unfold decide_pages_to_personalize_node
    show ((decide_pages_go dresp (4+1) 0 s).1.error_occurred = false) ∧ _
    unfold decide_pages_go
    rw [herr, hci, hpl, hr0]
    simp only [handle_error_preparation_process, hflag]
    unfold decide_pages_go
    simp [herr, hci, hpl, hr1, hflag]
  · intro resp s org r0 r1 r2 herr hflag hd horg hr0 hind0 hr1 hind1 hr2 hind2
    have e1 := analyze_company_go_org_notfound_first resp 5 0 s org r0
      (by decide) herr hflag hd horg hr0 hind0
    norm_num at e1
    rw [analyze_company_go_org_found resp 4 1
      { s with error_message := "Unable to find the industry of the company: " ++ org,
               is_retry_step := true }
      org r1 (by decide) herr hd horg hr1 hind1] at e1
    dsimp only at e1
    rw [analyze_company_go_org_notfound_fatal resp 4 2
      { s with error_message := "Unable to find the industry of the company: " ++ org,
               is_retry_step := true,
               customer_information := some (buildCustomerInformation r1 s.customer_uid) }
      org r2 (by decide) herr rfl hd horg hr2 hind2] at e1
    unfold analyze_company_node
    rw [e1]
    simp

/-- An agent-outcome stream that fails once, then finds the industry. -/
def analyzeFailThenFound : Nat → Except String CompanyInformationResp :=
  fun n => if n = 0 then Except.error "research request failed"
           else Except.ok { company_size := 10, industry := "tech", country := "NL", steps_executed := "" }

/-- A page-choice stream that always raises. -/
def decideAlwaysExc : Nat → Except String PagesChoice :=
  fun _ => Except.error "page choice request failed"

/-- Witness for C5 (amended) at concrete inputs: AnalyzeCompany recovers
by its single retry but leaves the flag set; a later DecidePages first
failure with the flag set is fatal without retry. -/
theorem c5_shared_retry_flag_policy_witness :
    ((analyze_company_node analyzeFailThenFound prepFetched).1.error_occurred = false ∧
     (analyze_company_node analyzeFailThenFound prepFetched).1.is_retry_step = true ∧
     (analyze_company_node analyzeFailThenFound prepFetched).2 = 2) ∧
    ((decide_pages_to_personalize_node decideAlwaysExc
        { prepFetched with is_retry_step := true,
                           customer_information := some custInfo }).1.error_occurred = true ∧
     (decide_pages_to_personalize_node decideAlwaysExc
        { prepFetched with is_retry_step := true,
                           customer_information := some custInfo }).2 = 1) :=
  ⟨⟨(c5_shared_retry_flag_policy.1 analyzeFailThenFound prepFetched
      "acme.com" "research request failed"
      { company_size := 10, industry := "tech", country := "NL", steps_executed := "" }
      rfl rfl rfl (by decide) (by decide) rfl rfl (by decide)).2.1,
    (c5_shared_retry_flag_policy.1 analyzeFailThenFound prepFetched
      "acme.com" "research request failed"
      { company_size := 10, industry := "tech", country := "NL", steps_executed := "" }
      rfl rfl rfl (by decide) (by decide) rfl rfl (by decide)).2.2.1,
    (c5_shared_retry_flag_policy.1 analyzeFailThenFound prepFetched
      "acme.com" "research request failed"
      { company_size := 10, industry := "tech", country := "NL", steps_executed := "" }
      rfl rfl rfl (by decide) (by decide) rfl rfl (by decide)).2.2.2⟩,
   c5_shared_retry_flag_policy.2.1 decideAlwaysExc
      { prepFetched with is_retry_step := true,
                         customer_information := some custInfo }
      "page choice request failed" custInfo { entries := [pageThree] }
      rfl rfl rfl rfl rfl⟩

/-- Counterexample to C5 as stated: after AnalyzeCompany consumes its
retry (first response raises, second succeeds — the whole request is still
healthy), the very FIRST failure of DecidePagesToPersonalize is fatal and
the step is never re-attempted (exactly one decide invocation), refuting
"each step's single retry is independent of whether an earlier step
consumed a retry". -/
theorem c5_shared_retry_flag_policy_counterexample :
    ((analyze_company_node analyzeFailThenFound prepFetched).1.error_occurred = false) ∧
    ((decide_pages_to_personalize_node decideAlwaysExc
        (analyze_company_node analyzeFailThenFound prepFetched).1).1.error_occurred = true) ∧
    ((decide_pages_to_personalize_node decideAlwaysExc
        (analyze_company_node analyzeFailThenFound prepFetched).1).2 = 1) := by
  decide

/-! ## C8 — fetch failures abort the preparation workflow -/

/-- A failing read in `fetch_data_node` marks the request failed with the
retry flag still clear (the `"FetchData"` branch of the handler is
unconditionally fatal — no retry ever happens). -/
theorem fetch_read_failure_fatal (env : PrepEnv) (s : PreparationState)
    (e : String)
    (h : env.pagesResult = Except.error e ∨
         env.assetsResult = Except.error e ∨
         env.profileResult = Except.error e) :
    (fetch_data_node env s).error_occurred = true ∧
    (fetch_data_node env s).is_retry_step = false := by
  rcases h with h | h | h
  · simp [fetch_data_node, h, handle_error_preparation_process]
  · cases hp : env.pagesResult <;>
      simp [fetch_data_node, hp, h, handle_error_preparation_process]
  · cases hp : env.pagesResult <;>
      cases ha : env.assetsResult <;>
      simp [fetch_data_node, hp, ha, h, handle_error_preparation_process]

/-- `decide_pages_to_personalize_node` invoked on an error state returns
it unchanged. -/
theorem decide_pages_go_on_error (dresp : Nat → Except String PagesChoice)
    (fuel idx : Nat) (s : PreparationState) (h : s.error_occurred = true) :
    decide_pages_go dresp fuel idx s = (s, idx) := by
  cases fuel <;> simp [decide_pages_go, h]

/-- `parallel_processing_node` invoked on an error state returns it
unchanged. -/
theorem parallel_processing_node_on_error (pe : Nat → PageEnv) (fuel : Nat)
    (collection : List Page) (s : PreparationState)
    (h : s.error_occurred = true) :
    parallel_processing_node pe fuel collection s = s := by
  simp [parallel_processing_node, h]

/-- C8: any failing `FetchData` read (CMS pages, CMS assets, or CDP
profile) aborts the whole preparation workflow immediately and without
retry — the error flag is raised with the retry flag left clear, every
later node returns an error-flagged state unchanged, and the whole
four-node graph run collapses to the fetch node's output. -/
theorem c8_fetch_failure_aborts :
    (∀ (env : PrepEnv) (s : PreparationState) (e : String),
      (env.pagesResult = Except.error e ∨
       env.assetsResult = Except.error e ∨
       env.profileResult = Except.error e) →
      (fetch_data_node env s).error_occurred = true ∧
      (fetch_data_node env s).is_retry_step = false) ∧
    (∀ (resp : Nat → Except String CompanyInformationResp)
       (fuel idx : Nat) (s : PreparationState), s.error_occurred = true →
      analyze_company_go resp fuel idx s = (s, idx)) ∧
    (∀ (dresp : Nat → Except String PagesChoice)
       (fuel idx : Nat) (s : PreparationState), s.error_occurred = true →
      decide_pages_go dresp fuel idx s = (s, idx)) ∧
    (∀ (pe : Nat → PageEnv) (fuel : Nat) (collection : List Page)
       (s : PreparationState), s.error_occurred = true →
      parallel_processing_node pe fuel collection s = s) ∧
    (∀ (env : PrepEnv) (pe : Nat → PageEnv) (fuel : Nat)
       (collection : List Page) (s : PreparationState) (e : String),
      (env.pagesResult = Except.error e ∨
       env.assetsResult = Except.error e ∨
       env.profileResult = Except.error e) →
      preparation_graph_ainvoke env pe fuel collection s =
        fetch_data_node env s) := by
  refine ⟨fetch_read_failure_fatal, analyze_company_go_on_error,
    decide_pages_go_on_error, parallel_processing_node_on_error, ?_⟩
  intro env pe fuel collection s e h
  have habort := fetch_read_failure_fatal env s e h
  simp only [preparation_graph_ainvoke, analyze_company_node,
    decide_pages_to_personalize_node]
  rw [analyze_company_go_on_error env.analyzeResp 5 0 _ habort.1]
  rw [decide_pages_go_on_error env.decideResp 5 0 _ habort.1]
  rw [parallel_processing_node_on_error pe fuel collection _ habort.1]

/-- A `PrepEnv` whose CMS assets read raises. -/
def envAssetsDown : PrepEnv :=
  { pagesResult := Except.ok { entries := [pageThree] },
    assetsResult := Except.error "503 Service Unavailable",
    profileResult := Except.ok { email_domain := some "acme.com" },
    analyzeResp := analyzeFailThenFound,
    decideResp := decideAlwaysExc }

/-- Witness for C8: a failing asset read aborts the request with no retry
flag and the whole graph run equals the fetch output. -/
theorem c8_fetch_failure_aborts_witness :
    ((fetch_data_node envAssetsDown prepFetched).error_occurred = true ∧
     (fetch_data_node envAssetsDown prepFetched).is_retry_step = false) ∧
    (preparation_graph_ainvoke envAssetsDown (fun _ =>
        { decideResp := Except.ok ["text"],
          steps := fun _ =>
            { textsResp := Except.error "x", imagesResp := Except.error "x",
              orderResp := Except.error "x", saveExc := none } })
        3 [] prepFetched =
      fetch_data_node envAssetsDown prepFetched) :=
  ⟨c8_fetch_failure_aborts.1 envAssetsDown prepFetched
      "503 Service Unavailable" (Or.inr (Or.inl rfl)),
   c8_fetch_failure_aborts.2.2.2.2 envAssetsDown _ 3 [] prepFetched
      "503 Service Unavailable" (Or.inr (Or.inl rfl))⟩

/-! ## C2 — the retry-once law -/

/-- C2 (amended): (1) for `PersonalizeText`, a step that failed once
leaving only the retry flag set and then succeeds is indistinguishable
from an immediately-successful step (full state equality); (2) the same
holds for `PersonalizeImages` — but only under the proviso that the
failing attempt left the state unchanged apart from the flag, which the
mutating `IndexError` failure does not (see the counterexample); (3) the
same holds for `ReorderBlocks`; (4) for `Save`, fail-once-then-retry
agrees with immediate success on the final page, the stored collection
and the queue (the never-reset retry flag differs); (5) a failure on a
retried step always empties the queue and installs the Error-tagged page,
(6a)-(6d) instantiated for each of the four step nodes; and (7) in the
compiled graph a failing `Save` ends the page run immediately — the
`SavePersPage -> END` edge means Save is never actually retried, so its
retry law is a node-level statement only. -/
theorem c2_retry_once_law :
    (∀ (s : PersonalizationProcessState)
       (r1 : Except String (List GeneratedText))
       (ts : List GeneratedText) (page : Page) (q0 : String)
       (qrest : List String),
      s.page_to_personalize = PageResult.ok page →
      s.personalization_queue = q0 :: qrest →
      ts.length = page.blocks.length →
      personalize_texts_node s r1 = { s with is_retry_step := true } →
      personalize_texts_node (personalize_texts_node s r1) (Except.ok ts) =
        personalize_texts_node s (Except.ok ts)) ∧
    (∀ (s : PersonalizationProcessState) (r1 : Except String ImagesResponse)
       (resp : ImagesResponse) (page : Page) (q0 : String)
       (qrest : List String),
      s.page_to_personalize = PageResult.ok page →
      s.personalization_queue = q0 :: qrest →
      personalize_images_node s r1 = { s with is_retry_step := true } →
      resp.block_uids.filter
        (fun u => (page.blocks.find? (fun b => b.uid = u)).isSome) ≠ [] →
      (resp.block_uids.filter
        (fun u => (page.blocks.find? (fun b => b.uid = u)).isSome)).length ≤
        (resp.titles.filterMap
          (fun t => s.asset_list.assets.find? (fun a => a.title = t))).length →
      personalize_images_node (personalize_images_node s r1) (Except.ok resp) =
        personalize_images_node s (Except.ok resp)) ∧
    (∀ (s : PersonalizationProcessState) (r1 : Except String GeneratedOrder)
       (resp : GeneratedOrder) (page : Page) (q0 : String)
       (qrest : List String),
      s.page_to_personalize = PageResult.ok page →
      page.blocks ≠ [] →
      s.personalization_queue = q0 :: qrest →
      personalize_element_order_node s r1 = { s with is_retry_step := true } →
      resp.block_order ≠ [] →
      personalize_element_order_node
          (personalize_element_order_node s r1) (Except.ok resp) =
        personalize_element_order_node s (Except.ok resp)) ∧
    (∀ (s : PersonalizationProcessState) (page : Page) (coll : List Page)
       (e : String) (q0 : String) (qrest : List String),
      s.is_retry_step = false →
      s.page_to_personalize = PageResult.ok page →
      s.personalization_queue = q0 :: qrest →
      ((save_personalized_page_node
          (save_personalized_page_node s (some e) coll).1 none coll).1.page_to_personalize =
        (save_personalized_page_node s none coll).1.page_to_personalize) ∧
      ((save_personalized_page_node
          (save_personalized_page_node s (some e) coll).1 none coll).2 =
        (save_personalized_page_node s none coll).2) ∧
      ((save_personalized_page_node
          (save_personalized_page_node s (some e) coll).1 none coll).1.personalization_queue =
        (save_personalized_page_node s none coll).1.personalization_queue)) ∧
    (∀ (s : PersonalizationProcessState) (m : String),
      s.is_retry_step = true →
      handle_error_personalization_process s m =
        { s with personalization_queue := [],
                 page_to_personalize := PageResult.err m }) ∧
    (∀ (s : PersonalizationProcessState) (e : String),
      s.is_retry_step = true →
      (personalize_texts_node s (Except.error e)).personalization_queue = [] ∧
      (personalize_texts_node s (Except.error e)).page_to_personalize.isErr = true) ∧
    (∀ (s : PersonalizationProcessState) (e : String),
      s.is_retry_step = true →
      (personalize_images_node s (Except.error e)).personalization_queue = [] ∧
      (personalize_images_node s (Except.error e)).page_to_personalize.isErr = true) ∧
    (∀ (s : PersonalizationProcessState) (e : String) (page : Page)
       (b0 : Block) (rest : List Block),
      s.is_retry_step = true →
      s.page_to_personalize = PageResult.ok page →
      page.blocks = b0 :: rest →
      (personalize_element_order_node s (Except.error e)).personalization_queue = [] ∧
      (personalize_element_order_node s (Except.error e)).page_to_personalize.isErr = true) ∧
    (∀ (s : PersonalizationProcessState) (e : String) (page : Page)
       (coll : List Page),
      s.is_retry_step = true →
      s.page_to_personalize = PageResult.ok page →
      ((save_personalized_page_node s (some e) coll).1.personalization_queue = [] ∧
       (save_personalized_page_node s (some e) coll).1.page_to_personalize.isErr = true)) ∧
    (∀ (env : Nat → StepEnv) (fuel i : Nat)
       (s : PersonalizationProcessState) (coll : List Page)
       (rest : List String) (e : String),
      s.personalization_queue = "save" :: rest →
      (env i).saveExc = some e →
      runTrace env (fuel + 1) i s coll =
        [(save_personalized_page_node s (some e) coll).1]) := by
  refine ⟨?_, ?_, ?_, ?_, ?_, ?_, ?_, ?_, ?_, ?_⟩
  · intro s r1 ts page q0 qrest hpage hq hlen hfail
    rw [hfail]
    have hnr : (updateTexts page.blocks ts).2 = false := by
      rw [Bool.eq_false_iff]
      intro hcon
      rw [updateTexts_raises] at hcon
      omega
    simp [personalize_texts_node, hpage, hq, hnr]
  · intro s r1 resp page q0 qrest hpage hq hfail hne hlen
    rw [hfail]
    have hnz : (resp.block_uids.filter
        (fun u => (page.blocks.find? (fun b => b.uid = u)).isSome)).length ≠ 0 := by
      simpa [List.length_eq_zero] using hne
    have hnr : (applyImagesLoop page.blocks
        (resp.block_uids.filter
          (fun u => (page.blocks.find? (fun b => b.uid = u)).isSome))
        (resp.titles.filterMap
          (fun t => s.asset_list.assets.find? (fun a => a.title = t)))).2 = false := by
      rw [Bool.eq_false_iff]
      intro hcon
      rw [applyImagesLoop_raises] at hcon
      omega
    simp [personalize_images_node, hpage, hq, hnz, hnr]
  · intro s r1 resp page q0 qrest hpage hblocks hq hfail hord
    rw [hfail]
    obtain ⟨b0, rest, hbl⟩ : ∃ b0 rest, page.blocks = b0 :: rest := by
      cases hb : page.blocks with
      | nil => exact absurd hb hblocks
      | cons x xs => exact ⟨x, xs, rfl⟩
    simp [personalize_element_order_node, hpage, hbl, hq, hord]
  · intro s page coll e q0 qrest hflag hpage hq
    simp [save_personalized_page_node, hpage, hq, hflag,
      handle_error_personalization_process]
  · intro s m hflag
    simp [handle_error_personalization_process, hflag]
  · intro s e hflag
    cases hp : s.page_to_personalize <;>
      simp [personalize_texts_node, hp, handle_error_personalization_process,
        hflag, PageResult.isErr]
  · intro s e hflag
    cases hp : s.page_to_personalize <;>
      simp [personalize_images_node, hp, handle_error_personalization_process,
        hflag, PageResult.isErr]
  · intro s e page b0 rest hflag hpage hbl
    simp [personalize_element_order_node, hpage, hbl,
      handle_error_personalization_process, hflag, PageResult.isErr]
  · intro s e page coll hflag hpage
    simp [save_personalized_page_node, hpage,
      handle_error_personalization_process, hflag, PageResult.isErr]
  · intro env fuel i s coll rest e hq he
    have hr : personalization_router_node s = some RouterTarget.savePersPage := by
      simp [personalization_router_node, hq]
    simp [runTrace, hr, he]

/-- Witness for C2 (amended): a concrete text step failing once by
exception and then succeeding equals the immediately-successful step; a
concrete save step failing on a retried attempt poisons the queue with an
Error page. -/
theorem c2_retry_once_law_witness :
    (personalize_texts_node
        (personalize_texts_node
          { psImage with personalization_queue := ["text", "save"] }
          (Except.error "timeout"))
        (Except.ok [⟨"T1", "C1", ""⟩, ⟨"T2", "C2", ""⟩]) =
      personalize_texts_node
        { psImage with personalization_queue := ["text", "save"] }
        (Except.ok [⟨"T1", "C1", ""⟩, ⟨"T2", "C2", ""⟩])) ∧
    ((save_personalized_page_node
        { psImage with personalization_queue := ["save"], is_retry_step := true }
        (some "connection reset") []).1.personalization_queue = [] ∧
     (save_personalized_page_node
        { psImage with personalization_queue := ["save"], is_retry_step := true }
        (some "connection reset") []).1.page_to_personalize.isErr = true) :=
  ⟨c2_retry_once_law.1
      { psImage with personalization_queue := ["text", "save"] }
      (Except.error "timeout")
      [⟨"T1", "C1", ""⟩, ⟨"T2", "C2", ""⟩] pageTwo "text" ["save"]
      rfl rfl (by decide) (by decide),
   c2_retry_once_law.2.2.2.2.2.2.2.2.1
      { psImage with personalization_queue := ["save"], is_retry_step := true }
      "connection reset" pageTwo [] rfl rfl⟩

/-- Counterexample to C2 as stated: a `PersonalizeImages` attempt that
resolves two uids but only one title fails (flag set, queue unchanged)
AFTER having placed `Photo-A` on `u1` in place; the successful retry then
places `Photo-B` on `u2`, and the final page keeps the stale `Photo-A`
placement — different from the page produced by the same successful
response without the preceding failure. -/
theorem c2_retry_once_law_counterexample :
    ((personalize_images_node psImage
        (Except.ok { titles := ["Photo-A", "Photo-X"],
                     block_uids := ["u1", "u2"], explanation := [] })).personalization_queue =
      psImage.personalization_queue) ∧
    ((personalize_images_node psImage
        (Except.ok { titles := ["Photo-A", "Photo-X"],
                     block_uids := ["u1", "u2"], explanation := [] })).is_retry_step = true) ∧
    ((personalize_images_node
        (personalize_images_node psImage
          (Except.ok { titles := ["Photo-A", "Photo-X"],
                       block_uids := ["u1", "u2"], explanation := [] }))
        (Except.ok { titles := ["Photo-B"], block_uids := ["u2"],
                     explanation := [] })).personalization_queue = ["save"]) ∧
    ((personalize_images_node
        (personalize_images_node psImage
          (Except.ok { titles := ["Photo-A", "Photo-X"],
                       block_uids := ["u1", "u2"], explanation := [] }))
        (Except.ok { titles := ["Photo-B"], block_uids := ["u2"],
                     explanation := [] })).is_retry_step = false) ∧
    ((personalize_images_node psImage
        (Except.ok { titles := ["Photo-B"], block_uids := ["u2"],
                     explanation := [] })).personalization_queue = ["save"]) ∧
    ((personalize_images_node
        (personalize_images_node psImage
          (Except.ok { titles := ["Photo-A", "Photo-X"],
                       block_uids := ["u1", "u2"], explanation := [] }))
        (Except.ok { titles := ["Photo-B"], block_uids := ["u2"],
                     explanation := [] })).page_to_personalize ≠
      (personalize_images_node psImage
        (Except.ok { titles := ["Photo-B"], block_uids := ["u2"],
                     explanation := [] })).page_to_personalize) := by
  decide

/-! ## C1 — queue monotonicity along a PageWorkflow run -/

/-- The queue trichotomy of one executed step node: a successful step
pops exactly the head (length drops by exactly one), a first failure
leaves the queue untouched and only flips the retry flag, and a fatal
failure empties the queue while installing the Error-tagged page. -/
def queueStepRel (a b : PersonalizationProcessState) : Prop :=
  (a.personalization_queue ≠ [] ∧
   b.personalization_queue = a.personalization_queue.tail) ∨
  (b.personalization_queue = a.personalization_queue ∧
   a.is_retry_step = false ∧ b.is_retry_step = true) ∨
  (b.personalization_queue = [] ∧ b.page_to_personalize.isErr = true ∧
   a.is_retry_step = true)

instance queueStepRel.instDecidable (a b : PersonalizationProcessState) :
    Decidable (queueStepRel a b) := by
  unfold queueStepRel
  infer_instance

/-- Every step transition is queue-non-increasing. -/
theorem queueStepRel_length (a b : PersonalizationProcessState)
    (h : queueStepRel a b) :
    b.personalization_queue.length ≤ a.personalization_queue.length := by
  rcases h with ⟨hne, htail⟩ | ⟨heq, _⟩ | ⟨hnil, _⟩
  · rw [htail]
    exact (List.length_tail _) ▸ Nat.sub_le _ _
  · rw [heq]
  · rw [hnil]
    exact Nat.zero_le _

/-- Every state of a trace except possibly the last still has a nonempty
queue: once the queue is empty (success or poisoning) the run stops, so
the queue is emptied at most once per run. -/
def nonFinalQueuesNonempty : List PersonalizationProcessState → Bool
  | [] => true
  | [_] => true
  | a :: b :: rest =>
      !a.personalization_queue.isEmpty && nonFinalQueuesNonempty (b :: rest)

/-- An empty queue routes to `END`: no further node runs. -/
theorem runTrace_nil_of_empty_queue (env : Nat → StepEnv) (fuel i : Nat)
    (s : PersonalizationProcessState) (coll : List Page)
    (h : s.personalization_queue = []) :
    runTrace env fuel i s coll = [] := by
  cases fuel <;> simp [runTrace, personalization_router_node, h]

/-- The text write-back keeps the block list nonempty. -/
theorem updateTexts_ne_nil (bs : List Block) (ts : List GeneratedText)
    (h : bs ≠ []) : (updateTexts bs ts).1 ≠ [] := by
  intro hcon
  apply h
  have := updateTexts_length bs ts
  rw [hcon] at this
  simpa [List.length_eq_zero] using this.symm

/-- The image assignment loop keeps the block list nonempty. -/
theorem applyImagesLoop_ne_nil (bs : List Block) (us : List String)
    (imgs : List Asset) (h : bs ≠ []) : (applyImagesLoop bs us imgs).1 ≠ [] := by
  intro hcon
  apply h
  have := applyImagesLoop_length us bs imgs
  rw [hcon] at this
  simpa [List.length_eq_zero] using this.symm

/-- `PersTexts` satisfies the queue trichotomy and preserves the
working-page invariant unless it emptied the queue. -/
theorem texts_queue_step (s : PersonalizationProcessState)
    (resp : Except String (List GeneratedText)) (page : Page)
    (hpage : s.page_to_personalize = PageResult.ok page)
    (hbl : page.blocks ≠ []) (q0 : String) (qrest : List String)
    (hq : s.personalization_queue = q0 :: qrest) :
    queueStepRel s (personalize_texts_node s resp) ∧
    ((∃ p2, (personalize_texts_node s resp).page_to_personalize =
        PageResult.ok p2 ∧ p2.blocks ≠ []) ∨
      (personalize_texts_node s resp).personalization_queue = []) := by
  cases resp with
  | error e =>
      cases hf : s.is_retry_step <;>
        simp [personalize_texts_node, hpage, handle_error_personalization_process,
          hf, queueStepRel, PageResult.isErr, hq, hbl]
  | ok ts =>
      cases hr : (updateTexts page.blocks ts).2 with
      | true =>
          cases hf : s.is_retry_step <;>
            simp [personalize_texts_node, hpage, handle_error_personalization_process,
              hf, hr, queueStepRel, PageResult.isErr, hq,
              updateTexts_ne_nil page.blocks ts hbl]
      | false =>
          simp [personalize_texts_node, hpage, hr, hq, queueStepRel,
            updateTexts_ne_nil page.blocks ts hbl]

/-- `PersImages` satisfies the queue trichotomy and preserves the
working-page invariant unless it emptied the queue. -/
theorem images_queue_step (s : PersonalizationProcessState)
    (resp : Except String ImagesResponse) (page : Page)
    (hpage : s.page_to_personalize = PageResult.ok page)
    (hbl : page.blocks ≠ []) (q0 : String) (qrest : List String)
    (hq : s.personalization_queue = q0 :: qrest) :
    queueStepRel s (personalize_images_node s resp) ∧
    ((∃ p2, (personalize_images_node s resp).page_to_personalize =
        PageResult.ok p2 ∧ p2.blocks ≠ []) ∨
      (personalize_images_node s resp).personalization_queue = []) := by
  cases resp with
  | error e =>
      cases hf : s.is_retry_step <;>
        simp [personalize_images_node, hpage, handle_error_personalization_process,
          hf, queueStepRel, PageResult.isErr, hq, hbl]
  | ok resp =>
      by_cases hz : (resp.block_uids.filter
          (fun u => (page.blocks.find? (fun b => b.uid = u)).isSome)).length = 0
      · cases hf : s.is_retry_step <;>
          simp [personalize_images_node, hpage, handle_error_personalization_process,
            hf, hz, queueStepRel, PageResult.isErr, hq, hbl]
      · cases hr : (applyImagesLoop page.blocks
            (resp.block_uids.filter
              (fun u => (page.blocks.find? (fun b => b.uid = u)).isSome))
            (resp.titles.filterMap
              (fun t => s.asset_list.assets.find? (fun a => a.title = t)))).2 with
        | true =>
            cases hf : s.is_retry_step <;>
              simp [personalize_images_node, hpage, handle_error_personalization_process,
                hf, hz, hr, queueStepRel, PageResult.isErr, hq,
                applyImagesLoop_ne_nil page.blocks _ _ hbl]
        | false =>
            simp [personalize_images_node, hpage, hz, hr, hq, queueStepRel,
              applyImagesLoop_ne_nil page.blocks _ _ hbl]

/-- `PersElmtOrder` satisfies the queue trichotomy and preserves the
working-page invariant unless it emptied the queue. -/
theorem order_queue_step (s : PersonalizationProcessState)
    (resp : Except String GeneratedOrder) (page : Page)
    (hpage : s.page_to_personalize = PageResult.ok page)
    (hbl : page.blocks ≠ []) (q0 : String) (qrest : List String)
    (hq : s.personalization_queue = q0 :: qrest) :
    queueStepRel s (personalize_element_order_node s resp) ∧
    ((∃ p2, (personalize_element_order_node s resp).page_to_personalize =
        PageResult.ok p2 ∧ p2.blocks ≠ []) ∨
      (personalize_element_order_node s resp).personalization_queue = []) := by
  obtain ⟨b0, rest, hbk⟩ : ∃ b0 rest, page.blocks = b0 :: rest := by
    cases hb : page.blocks with
    | nil => exact absurd hb hbl
    | cons x xs => exact ⟨x, xs, rfl⟩
  cases resp with
  | error e =>
      cases hf : s.is_retry_step <;>
        simp [personalize_element_order_node, hpage, hbk,
          handle_error_personalization_process, hf, queueStepRel,
          PageResult.isErr, hq]
  | ok resp =>
      by_cases hord : resp.block_order = []
      · cases hf : s.is_retry_step <;>
          simp [personalize_element_order_node, hpage, hbk,
            handle_error_personalization_process, hf, hord, queueStepRel,
            PageResult.isErr, hq]
      · simp [personalize_element_order_node, hpage, hbk, hord, hq, queueStepRel]

/-- `SavePersPage` satisfies the queue trichotomy and preserves the
working-page invariant unless it emptied the queue. -/
theorem save_queue_step (s : PersonalizationProcessState)
    (dbExc : Option String) (coll : List Page) (page : Page)
    (hpage : s.page_to_personalize = PageResult.ok page)
    (hbl : page.blocks ≠ []) (q0 : String) (qrest : List String)
    (hq : s.personalization_queue = q0 :: qrest) :
    queueStepRel s (save_personalized_page_node s dbExc coll).1 ∧
    ((∃ p2, (save_personalized_page_node s dbExc coll).1.page_to_personalize =
        PageResult.ok p2 ∧ p2.blocks ≠ []) ∨
      (save_personalized_page_node s dbExc coll).1.personalization_queue = []) := by
  cases dbExc with
  | some e =>
      cases hf : s.is_retry_step <;>
        simp [save_personalized_page_node, hpage,
          handle_error_personalization_process, hf, queueStepRel,
          PageResult.isErr, hq, hbl]
  | none =>
      simp [save_personalized_page_node, hpage, hq, queueStepRel, hbl]

/-- Along every router-driven run from a working page, consecutive states
satisfy the queue trichotomy and only the final state may have an empty
queue. -/
theorem queue_trace_chain (env : Nat → StepEnv) :
    ∀ (fuel i : Nat) (s : PersonalizationProcessState) (coll : List Page)
      (page : Page),
      s.page_to_personalize = PageResult.ok page → page.blocks ≠ [] →
      List.Chain' queueStepRel (s :: runTrace env fuel i s coll) ∧
      nonFinalQueuesNonempty (s :: runTrace env fuel i s coll) = true := by
  intro fuel
  induction fuel with
  | zero =>
      intro i s coll page hpage hbl
      simp [runTrace, nonFinalQueuesNonempty]
  | succ fuel ih =>
      intro i s coll page hpage hbl
      cases hq : s.personalization_queue with
      | nil =>
          have htr : runTrace env (fuel + 1) i s coll = [] := by
            simp [runTrace, personalization_router_node, hq]
          rw [htr]
          simp [nonFinalQueuesNonempty]
      | cons q0 qrest =>
          by_cases h0 : q0 = "text"
          · have hr : personalization_router_node s = some RouterTarget.persTexts := by
              simp [personalization_router_node, hq, h0]
            have htr : runTrace env (fuel + 1) i s coll =
                personalize_texts_node s (env i).textsResp ::
                  runTrace env fuel (i + 1)
                    (personalize_texts_node s (env i).textsResp) coll := by
              simp [runTrace, hr]
            have hstep := texts_queue_step s ((env i).textsResp) page hpage hbl
              q0 qrest hq
            rw [htr]
            rcases hstep.2 with ⟨p2, hp2, hbl2⟩ | hq2
            · have iht := ih (i + 1)
                (personalize_texts_node s (env i).textsResp) coll p2 hp2 hbl2
              refine ⟨List.chain'_cons.mpr ⟨hstep.1, iht.1⟩, ?_⟩
              simp [nonFinalQueuesNonempty, hq, iht.2]
            · rw [runTrace_nil_of_empty_queue env fuel (i + 1) _ coll hq2]
              refine ⟨List.chain'_cons.mpr ⟨hstep.1, List.chain'_singleton _⟩, ?_⟩
              simp [nonFinalQueuesNonempty, hq]
          · by_cases h1 : q0 = "image"
            · have hr : personalization_router_node s = some RouterTarget.persImages := by
                simp [personalization_router_node, hq, h0, h1]
              have htr : runTrace env (fuel + 1) i s coll =
                  personalize_images_node s (env i).imagesResp ::
                    runTrace env fuel (i + 1)
                      (personalize_images_node s (env i).imagesResp) coll := by
                simp [runTrace, hr]
              have hstep := images_queue_step s ((env i).imagesResp) page hpage hbl
                q0 qrest hq
              rw [htr]
              rcases hstep.2 with ⟨p2, hp2, hbl2⟩ | hq2
              · have iht := ih (i + 1)
                  (personalize_images_node s (env i).imagesResp) coll p2 hp2 hbl2
                refine ⟨List.chain'_cons.mpr ⟨hstep.1, iht.1⟩, ?_⟩
                simp [nonFinalQueuesNonempty, hq, iht.2]
              · rw [runTrace_nil_of_empty_queue env fuel (i + 1) _ coll hq2]
                refine ⟨List.chain'_cons.mpr ⟨hstep.1, List.chain'_singleton _⟩, ?_⟩
                simp [nonFinalQueuesNonempty, hq]
            · by_cases h2 : q0 = "order"
              · have hr : personalization_router_node s = some RouterTarget.persElmtOrder := by
                  simp [personalization_router_node, hq, h0, h1, h2]
                have htr : runTrace env (fuel + 1) i s coll =
                    personalize_element_order_node s (env i).orderResp ::
                      runTrace env fuel (i + 1)
                        (personalize_element_order_node s (env i).orderResp) coll := by
                  simp [runTrace, hr]
                have hstep := order_queue_step s ((env i).orderResp) page hpage hbl
                  q0 qrest hq
                rw [htr]
                rcases hstep.2 with ⟨p2, hp2, hbl2⟩ | hq2
                · have iht := ih (i + 1)
                    (personalize_element_order_node s (env i).orderResp) coll p2 hp2 hbl2
                  refine ⟨List.chain'_cons.mpr ⟨hstep.1, iht.1⟩, ?_⟩
                  simp [nonFinalQueuesNonempty, hq, iht.2]
                · rw [runTrace_nil_of_empty_queue env fuel (i + 1) _ coll hq2]
                  refine ⟨List.chain'_cons.mpr ⟨hstep.1, List.chain'_singleton _⟩, ?_⟩
                  simp [nonFinalQueuesNonempty, hq]
              · by_cases h3 : q0 = "save"
                · have hr : personalization_router_node s = some RouterTarget.savePersPage := by
                    simp [personalization_router_node, hq, h0, h1, h2, h3]
                  have htr : runTrace env (fuel + 1) i s coll =
                      [(save_personalized_page_node s (env i).saveExc coll).1] := by
                    simp [runTrace, hr]
                  have hstep := save_queue_step s ((env i).saveExc) coll page hpage hbl
                    q0 qrest hq
                  rw [htr]
                  refine ⟨List.chain'_cons.mpr ⟨hstep.1, List.chain'_singleton _⟩, ?_⟩
                  simp [nonFinalQueuesNonempty, hq]
                · have hr : personalization_router_node s = none := by
                    simp [personalization_router_node, hq, h0, h1, h2, h3]
                  have htr : runTrace env (fuel + 1) i s coll = [] := by
                    simp [runTrace, hr]
                  rw [htr]
                  simp [nonFinalQueuesNonempty]

/-- C1: for every PageWorkflow run (the router-driven loop over an
installed queue, starting from a working page), each executed step either
pops exactly the queue head (successful transition: length strictly
decreases by exactly one), leaves the queue unchanged while consuming the
single retry (first failure), or — exactly on a fatal second failure —
sets the queue to empty together with the Error page; the queue length
never grows along the trace, and only the final state of the trace can
have an empty queue, so the queue is emptied at most once and the run
stops there. -/
theorem c1_queue_monotonicity (env : Nat → StepEnv) (fuel i : Nat)
    (coll : List Page) (s : PersonalizationProcessState) (page : Page)
    (hpage : s.page_to_personalize = PageResult.ok page)
    (hbl : page.blocks ≠ []) :
    List.Chain' queueStepRel (s :: runTrace env fuel i s coll) ∧
    List.Chain'
      (fun a b => b.personalization_queue.length ≤ a.personalization_queue.length)
      (s :: runTrace env fuel i s coll) ∧
    nonFinalQueuesNonempty (s :: runTrace env fuel i s coll) = true := by
  have h := queue_trace_chain env fuel i s coll page hpage hbl
  exact ⟨h.1, h.1.imp (fun a b hab => queueStepRel_length a b hab), h.2⟩

/-- A step environment where every model call succeeds. -/
def stepEnvAllOk : Nat → StepEnv := fun _ =>
  { textsResp := Except.ok [⟨"T1", "C1", ""⟩, ⟨"T2", "C2", ""⟩],
    imagesResp := Except.ok { titles := ["Photo-A"], block_uids := ["u1"],
                              explanation := [] },
    orderResp := Except.ok { block_order := ["u2"], explanation := "" },
    saveExc := none }

/-- Witness for C1: a concrete three-step run (`text`, `image`, `save`). -/
theorem c1_queue_monotonicity_witness :
    List.Chain' queueStepRel
      ({ psImage with personalization_queue := ["text", "image", "save"] } ::
        runTrace stepEnvAllOk 6 0
          { psImage with personalization_queue := ["text", "image", "save"] } []) ∧
    List.Chain'
      (fun a b => b.personalization_queue.length ≤ a.personalization_queue.length)
      ({ psImage with personalization_queue := ["text", "image", "save"] } ::
        runTrace stepEnvAllOk 6 0
          { psImage with personalization_queue := ["text", "image", "save"] } []) ∧
    nonFinalQueuesNonempty
      ({ psImage with personalization_queue := ["text", "image", "save"] } ::
        runTrace stepEnvAllOk 6 0
          { psImage with personalization_queue := ["text", "image", "save"] } []) = true :=
  c1_queue_monotonicity stepEnvAllOk 6 0 []
    { psImage with personalization_queue := ["text", "image", "save"] }
    pageTwo rfl (by decide)
